/-
Verification of the Two-Rooms game server core (TypeScript repository)
against its natural-language specification.

Shallow embedding: the TypeScript functions in src/server/src are translated
into executable Lean definitions (JS Maps become association lists in
insertion order, JS objects with string keys become association lists,
Array.push becomes list append, Array.filter becomes List.filter,
Array.shift drops the list head).  Randomness (Math.random /
crypto.randomBytes) is modelled by passing the drawn value as an explicit
parameter together with a tag recording which random source the code read.
-/
import Mathlib

set_option maxRecDepth 10000

abbrev PlayerId := String
abbrev CharacterId := String

/-- Room identifiers, from shared/src/types.ts (enum RoomId). -/
inductive RoomId where
  | ROOM_A
  | ROOM_B
deriving DecidableEq, Repr

/-- Leader-election methods, from RoundEngine.electLeader's `method` argument. -/
inductive ElectionMethod where
  | MAJORITY_VOTE
  | RANDOM_SELECTION
deriving DecidableEq, Repr

/-- Which random source a draw was read from.  `mathRandom` stands for the
JavaScript `Math.random()` PRNG (not cryptographically strong);
`cryptoStrong` stands for `crypto.randomBytes` as used in
GameController.shuffleArray. -/
inductive RandSource where
  | mathRandom
  | cryptoStrong
deriving DecidableEq, Repr

-- ============================================================================
-- Hostage count (GameState.ts calculateHostageCount, and the private copy
-- ActionValidator.getHostageCount in the ValidationEngine)
-- ============================================================================

/-- Embeds `calculateHostageCount` from src/server/src/core/GameState.ts:284-298,
translated clause by clause from the if/else-if chain. -/
def calculateHostageCount (playerCount roundNumber : Nat) : Nat :=
  if 6 ≤ playerCount ∧ playerCount ≤ 10 then
    1
  else if 11 ≤ playerCount ∧ playerCount ≤ 21 then
    (if roundNumber = 1 then 2 else 1)
  else if 22 ≤ playerCount then
    (if roundNumber = 1 then 3 else if roundNumber = 2 then 2 else 1)
  else
    1

namespace ActionValidator

/-- Embeds `ActionValidator.getHostageCount` from the ValidationEngine
(src/unnamed/part_004:533-544), translated clause by clause; the source keeps
its own private copy of the hostage-count table. -/
def getHostageCount (playerCount roundNumber : Nat) : Nat :=
  if 6 ≤ playerCount ∧ playerCount ≤ 10 then
    1
  else if 11 ≤ playerCount ∧ playerCount ≤ 21 then
    (if roundNumber = 1 then 2 else 1)
  else if 22 ≤ playerCount then
    (if roundNumber = 1 then 3 else if roundNumber = 2 then 2 else 1)
  else
    1

end ActionValidator

-- ============================================================================
-- Event Bus (src/unnamed/part_006, services/EventBus.ts)
-- ============================================================================

namespace EventBus

/-- Event scope, from GameState.ts:
`EventScope = 'PUBLIC' | RoomId | { playerId: string }`. -/
inductive EventScope where
  | publicScope
  | room (roomId : RoomId)
  | player (playerId : PlayerId)
deriving DecidableEq, Repr

/-- A journal entry (`GameEvent` in GameState.ts).  `eventId` (a uuid) and
`timestamp` (Date.now) are environment-supplied identifiers with no logic on
them and are omitted; `payload` is carried per event type elsewhere. -/
structure GameEvent where
  sequenceNumber : Nat
  etype : String
  scope : EventScope
deriving DecidableEq, Repr

/-- A subscription record (EventBus.subscribe). -/
structure Subscription where
  id : String
  gameId : String
  playerId : Option PlayerId
deriving DecidableEq, Repr

/-- The per-game slice of the EventBus state: the `eventLog` entry and the
`sequenceNumbers` entry for one game id. -/
structure BusState where
  eventLog : List GameEvent
  seqCounter : Nat
deriving DecidableEq, Repr

/-- A game that has published nothing: no log entry, no sequence counter
(`sequenceNumbers.get(gameId) || 0` reads 0). -/
def emptyBus : BusState := ⟨[], 0⟩

/-- Embeds `EventBus.getNextSequenceNumber` (part_006:176-181): read the current
counter (0 when absent), add one, store it back, return it. -/
def getNextSequenceNumber (b : BusState) : Nat × BusState :=
  let next := b.seqCounter + 1
  (next, { b with seqCounter := next })

/-- Embeds `EventBus.logEvent` (part_006:186-195): push the event, then if the log
holds more than 1000 events drop the oldest (`events.shift()`). -/
def logEvent (b : BusState) (e : GameEvent) : BusState :=
  if 1000 < (b.eventLog ++ [e]).length then
    { b with eventLog := (b.eventLog ++ [e]).tail }
  else
    { b with eventLog := b.eventLog ++ [e] }

/-- Embeds `EventBus.shouldReceiveEvent` (part_006:200-223), translated branch by
branch.  The room branch is the source's
`// TODO: Check if player is in this room ... return true;`:
it returns `true` for every subscriber without consulting room membership. -/
def shouldReceiveEvent (sub : Subscription) (scope : EventScope) : Bool :=
  match scope with
  | .publicScope => true
  | .player pid => sub.playerId = some pid
  | .room _ => true

/-- The journal-write part of `EventBus.broadcast` (part_006:75-103):
create the event with the next sequence number and append it to the log. -/
def broadcast (b : BusState) (etype : String) (scope : EventScope) : BusState :=
  let next := getNextSequenceNumber b
  logEvent next.2 { sequenceNumber := next.1, etype := etype, scope := scope }

/-- The delivery part of `EventBus.broadcast`: the subscribers whose listener
is invoked are exactly those passing `shouldReceiveEvent`. -/
def deliveredTo (subs : List Subscription) (scope : EventScope) : List Subscription :=
  subs.filter (fun s => shouldReceiveEvent s scope)

/-- N successive publishes on a fresh game's bus (the event type and scope do
not influence sequence numbering or journal retention). -/
def publishN : Nat → BusState
  | 0 => emptyBus
  | n + 1 => broadcast (publishN n) "TEST_EVENT" .publicScope

/-- The journal's sequence numbers, in journal order. -/
def journalSeqs (b : BusState) : List Nat :=
  b.eventLog.map GameEvent.sequenceNumber

end EventBus

-- ============================================================================
-- Validation engine (src/unnamed/part_004, engines/ValidationEngine.ts)
-- ============================================================================

/-- A structured validation error (shared/src/types.ts `ValidationError`);
`severity` is one of ERROR / WARNING / INFO. -/
structure ValidationError where
  code : String
  message : String
  severity : String
  suggestion : Option String := none
deriving DecidableEq, Repr

/-- Embeds `ValidationResult` from shared/src/types.ts. -/
structure ValidationResult where
  valid : Bool
  errors : List ValidationError
  warnings : List ValidationError := []
deriving DecidableEq, Repr

/-- A character definition as the validator consumes it (id, display name,
team colour, dependency and mutual-exclusion id sets). -/
structure CharacterDef where
  id : CharacterId
  name : String
  team : String
  requires : List CharacterId
  mutuallyExclusive : List CharacterId
deriving DecidableEq, Repr

/-- Embeds `characterLoader.getCharacter`: lookup by id in the loaded catalogue. -/
def getCharacter (catalogue : List CharacterDef) (roleId : CharacterId) :
    Option CharacterDef :=
  catalogue.find? (fun c => c.id = roleId)

namespace RoleConfigurationValidator

/-- Embeds `RoleConfigurationValidator.validateDependencies` (part_004:163-194):
per selected role, unknown characters and unmet `requires` entries. -/
def validateDependencies (catalogue : List CharacterDef)
    (roles : List CharacterId) : List ValidationError :=
  roles.flatMap (fun roleId =>
    match getCharacter catalogue roleId with
    | none =>
        [{ code := "UNKNOWN_CHARACTER",
           message := "Unknown character: " ++ roleId,
           severity := "ERROR" }]
    | some c =>
        (c.requires.filter (fun requiredId => ¬ roles.contains requiredId)).map
          (fun requiredId =>
            { code := "MISSING_DEPENDENCY",
              message := c.name ++ " requires " ++ requiredId,
              severity := "ERROR" }))

/-- Embeds `RoleConfigurationValidator.validateMutualExclusions` (part_004:196-220). -/
def validateMutualExclusions (catalogue : List CharacterDef)
    (roles : List CharacterId) : List ValidationError :=
  roles.flatMap (fun roleId =>
    match getCharacter catalogue roleId with
    | none => []
    | some c =>
        (c.mutuallyExclusive.filter (fun excludedId => roles.contains excludedId)).map
          (fun excludedId =>
            { code := "MUTUALLY_EXCLUSIVE",
              message := c.name ++ " cannot be played with " ++ excludedId,
              severity := "ERROR" }))

/-- Embeds `RoleConfigurationValidator.checkTeamBalance` (part_004:222-247):
warning when |red − blue| > 2. -/
def checkTeamBalance (catalogue : List CharacterDef)
    (roles : List CharacterId) : List ValidationError :=
  let defs := roles.filterMap (getCharacter catalogue)
  let redCount := (defs.filter (fun c => c.team = "RED")).length
  let blueCount := (defs.filter (fun c => c.team = "BLUE")).length
  if 2 < max redCount blueCount - min redCount blueCount then
    [{ code := "UNBALANCED_TEAMS",
       message := "Teams are unbalanced",
       severity := "WARNING" }]
  else
    []

/-- Embeds `RoleConfigurationValidator.validate` (part_004:98-161), translated check
by check in source order.  Note the count check: the source computes
`expectedCount = buryCard ? playerCount - 1 : playerCount`.
A `playerCount` of 0 is falsy in JS and triggers the missing-context guard. -/
def validate (catalogue : List CharacterDef) (roles : List CharacterId)
    (playerCount : Nat) (buryCard : Bool) : ValidationResult :=
  if playerCount = 0 then
    { valid := false,
      errors := [{ code := "MISSING_CONTEXT",
                   message := "Missing roles or playerCount in validation context",
                   severity := "ERROR" }] }
  else
    let expectedCount := if buryCard then playerCount - 1 else playerCount
    let errors :=
      (if ¬ roles.contains "president" then
        [{ code := "MISSING_PRESIDENT",
           message := "President is required in every game",
           severity := "ERROR" }]
       else []) ++
      (if ¬ roles.contains "bomber" then
        [{ code := "MISSING_BOMBER",
           message := "Bomber is required in every game",
           severity := "ERROR" }]
       else []) ++
      (if roles.length ≠ expectedCount then
        [{ code := "ROLE_COUNT_MISMATCH",
           message := "Need " ++ toString expectedCount ++ " roles, but have "
                        ++ toString roles.length,
           severity := "ERROR" }]
       else []) ++
      validateDependencies catalogue roles ++
      validateMutualExclusions catalogue roles
    { valid := errors.length = 0,
      errors := errors,
      warnings := checkTeamBalance catalogue roles }

end RoleConfigurationValidator

-- ============================================================================
-- Role distribution (src/unnamed/part_002, GameController.distributeRoles)
-- ============================================================================

namespace GameController

/-- Outcome of role distribution: per player (in map insertion order) the role
it received, plus the buried card if any.  `none` in the role column models
the JS `undefined` read `roles[i]` past the end of the array. -/
structure DistributionResult where
  assignments : List (PlayerId × Option CharacterId)
  buriedCard : Option CharacterId
deriving DecidableEq, Repr

/-- Embeds `GameController.distributeRoles` (part_002:338-375) after the
Fisher-Yates shuffle (the shuffled deck is passed in): if `buryCard` is set
and there are more roles than players, `roles.pop()` moves the last role to
`private.buriedCard`; then player i receives `roles[i]`. -/
def distributeRoles (shuffledRoles : List CharacterId) (players : List PlayerId)
    (buryCard : Bool) : DistributionResult :=
  let rolesAfterBury :=
    if buryCard ∧ players.length < shuffledRoles.length then
      shuffledRoles.dropLast
    else shuffledRoles
  let buried :=
    if buryCard ∧ players.length < shuffledRoles.length then
      shuffledRoles.getLast?
    else none
  { assignments := players.enum.map (fun ip => (ip.2, rolesAfterBury.get? ip.1)),
    buriedCard := buried }

end GameController

/-- Mini-catalogue used for the concrete role-configuration evaluations:
the two hard-coded required roles plus three fillers, no dependencies or
exclusions. -/
def c1Catalogue : List CharacterDef :=
  [⟨"president", "President", "BLUE", [], []⟩,
   ⟨"bomber", "Bomber", "RED", [], []⟩,
   ⟨"doctor", "Doctor", "BLUE", [], []⟩,
   ⟨"engineer", "Engineer", "RED", [], []⟩,
   ⟨"gambler", "Gambler", "GREY", [], []⟩]

/-- A 7-card deck for 6 players with bury: what the spec requires (n + 1). -/
def roles7 : List CharacterId :=
  ["president", "bomber", "doctor", "engineer", "doctor", "engineer", "gambler"]

/-- A 5-card deck for 6 players with bury: what the code's validator demands
(n − 1). -/
def roles5 : List CharacterId :=
  ["president", "bomber", "doctor", "engineer", "gambler"]

/-- Six player ids in map insertion order. -/
def players6 : List PlayerId := ["p1", "p2", "p3", "p4", "p5", "p6"]

-- ============================================================================
-- Game model (core/GameState.ts) for the round-engine and controller claims
-- ============================================================================

/-- Timer state strings RUNNING / PAUSED / STOPPED. -/
inductive TimerRunState where
  | RUNNING
  | PAUSED
  | STOPPED
deriving DecidableEq, Repr

/-- The public timer view `game.state.public.timer` (shared `TimerState`). -/
structure TimerView where
  duration : Nat
  remaining : Nat
  tstate : TimerRunState
deriving DecidableEq, Repr

/-- Server-side player record (GameState.ts `Player`).  Connection fields,
timestamps and the collected-information lists are not read or written by any
embedded operation and are omitted. -/
structure PlayerE where
  id : PlayerId
  name : String
  isHost : Bool
  currentRole : Option CharacterId
  originalRole : Option CharacterId
  currentRoom : Option RoomId
  isLeader : Bool
  canBeHostage : Bool
  alive : Bool
  wasSentAsHostage : Bool
  usurpedLeadersCount : Nat
deriving DecidableEq, Repr

/-- Room state (shared `RoomState`): member ids in push order, leader id,
`leaderVotes` as a voter→candidate association list in object-key insertion
order, voting flags and hostage-selection state. -/
structure RoomStateE where
  players : List PlayerId
  leaderId : Option PlayerId
  leaderVotes : List (PlayerId × PlayerId)
  leaderVotingActive : Bool
  leaderVotingTieCount : Nat
  hostageCandidates : List PlayerId
  hostagesLocked : Bool
deriving DecidableEq, Repr

/-- Public game state (GameState.ts `PublicState`); the game/code identifier
strings and status are not consulted by the embedded operations. -/
structure PublicStateE where
  currentRound : Nat
  leaderA : Option PlayerId
  leaderB : Option PlayerId
  timer : TimerView
  paused : Bool
  pauseReason : Option String
  parlayActive : Bool
  roomAssignments : List (PlayerId × RoomId)
deriving DecidableEq, Repr

/-- The `Game` aggregate restricted to what the embedded operations read or
write: the players map (a JS Map, insertion-ordered), the two room states,
public state, config fields, and `state.private.hostId`. -/
structure GameE where
  players : List PlayerE
  roomA : RoomStateE
  roomB : RoomStateE
  pub : PublicStateE
  roundDurations : List Nat
  buryCard : Bool
  hostId : PlayerId
deriving DecidableEq, Repr

/-- Embeds `game.state.rooms[roomId]`. -/
def GameE.room (g : GameE) : RoomId → RoomStateE
  | .ROOM_A => g.roomA
  | .ROOM_B => g.roomB

/-- Write `game.state.rooms[roomId]`. -/
def GameE.setRoom (g : GameE) (roomId : RoomId) (rm : RoomStateE) : GameE :=
  match roomId with
  | .ROOM_A => { g with roomA := rm }
  | .ROOM_B => { g with roomB := rm }

/-- Write `game.state.public.leaders[roomId]`. -/
def GameE.setLeader (g : GameE) (roomId : RoomId) (v : Option PlayerId) : GameE :=
  match roomId with
  | .ROOM_A => { g with pub := { g.pub with leaderA := v } }
  | .ROOM_B => { g with pub := { g.pub with leaderB := v } }

/-- Embeds `game.players.get(pid)`. -/
def GameE.getPlayer (g : GameE) (pid : PlayerId) : Option PlayerE :=
  g.players.find? (fun p => p.id = pid)

/-- The common JS idiom `const p = game.players.get(pid); if (p) mutate p`:
update the mapped player object in place, a no-op when the id is absent. -/
def GameE.updatePlayer (g : GameE) (pid : PlayerId) (f : PlayerE → PlayerE) : GameE :=
  { g with players := g.players.map (fun p => if p.id = pid then f p else p) }

/-- JS object property assignment `m[k] = v` on a string-keyed object:
overwrite in place when the key exists (keys keep their insertion position),
append otherwise. -/
def assocSet {α β : Type} [DecidableEq α] (m : List (α × β)) (k : α) (v : β) :
    List (α × β) :=
  if m.any (fun kv => kv.1 = k) then
    m.map (fun kv => if kv.1 = k then (k, v) else kv)
  else
    m ++ [(k, v)]

/-- Structured error context attached to a `Result` (`context` field); only
the tie payload `{tied, tieCount, candidates}` is produced by the embedded
operations. -/
inductive ErrCtx where
  | tieInfo (tieCount : Nat) (candidates : List PlayerId)
deriving DecidableEq, Repr

/-- Embeds `Result<T>` from shared/src/types.ts, restricted to success flag, error
message and context. -/
structure ResultE where
  success : Bool
  error : Option String := none
  ctx : Option ErrCtx := none
deriving DecidableEq, Repr

/-- Embeds `{ success: true }`. -/
def ResultE.ok : ResultE := { success := true }

/-- Embeds `{ success: false, error: msg }`. -/
def ResultE.fail (msg : String) : ResultE := { success := false, error := some msg }

/-- The events published by the embedded operations, with the payload fields
their handlers populate.  `LEADER_TIE` is the source's LEADER_ELECTED
broadcast with `tied: true`. -/
inductive EventE where
  | VOTE_CAST (roomId : RoomId) (totalVotes totalPlayers : Nat)
  | LEADER_TIE (roomId : RoomId) (tieCount : Nat) (candidates : List PlayerId)
  | LEADER_ELECTED (roomId : RoomId) (leaderId : PlayerId) (method : ElectionMethod)
  | GAME_RESUMED (reason : String)
  | GAME_PAUSED (reason : String)
  | TIMER_UPDATE (remaining : Nat) (tstate : TimerRunState)
  | HOSTAGE_SELECTED (roomId : RoomId) (count required : Nat) (deselected : Bool)
  | HOSTAGES_LOCKED (roomId : RoomId)
  | ROUND_STARTED (round duration : Nat)
  | ROUND_ENDED (round : Nat) (reason : String)
  | PLAYER_LEFT (playerId : PlayerId) (playerCount : Nat)
  | HOSTAGES_EXCHANGED (fromA fromB : List PlayerId)
deriving DecidableEq, Repr

/-- Record of one random draw the code performed: which source it read, the
index drawn, and the pool it drew from. -/
structure RandomDraw where
  source : RandSource
  index : Nat
  pool : List PlayerId
deriving DecidableEq, Repr

/-- A `RoundTimer` entry of the TimerManager (part_003:17-26), without the
epoch fields and the interval handle (real time is outside the embedding:
while RUNNING, `remaining` is derived from the clock on each tick). -/
structure MgrTimer where
  duration : Nat
  remaining : Nat
  tstate : TimerRunState
deriving DecidableEq, Repr

/-- The TimerManager's `timers` entry for one game id: `none` when no timer
is registered (stopTimer deletes the entry). -/
abbrev MgrState := Option MgrTimer

namespace TimerManager

/-- Embeds `TimerManager.startTimer` (part_003:34-55): replace any existing timer
with a fresh RUNNING timer with `remaining = duration`. -/
def startTimer (d : Nat) : MgrState :=
  some { duration := d, remaining := d, tstate := .RUNNING }

/-- Embeds `TimerManager.resumeTimer` (part_003:109-127): only a PAUSED timer
resumes; `remaining` is preserved (the start epoch is shifted by the pause
span). -/
def resumeTimer (m : MgrState) : MgrState :=
  match m with
  | some t => if t.tstate = .PAUSED then some { t with tstate := .RUNNING } else some t
  | none => none

/-- Embeds `TimerManager.pauseTimer` (part_003:85-104): freeze `remaining` and mark
PAUSED. -/
def pauseTimer (m : MgrState) : MgrState :=
  match m with
  | some t => some { t with tstate := .PAUSED }
  | none => none

/-- Embeds `TimerManager.stopTimer` (part_003:132-143): delete the entry. -/
def stopTimer (_ : MgrState) : MgrState := none

end TimerManager

/-- Aggregate output of an embedded engine/controller operation: the mutated
game, the TimerManager entry, the events published (in order), the returned
`Result`, and the random draw performed, if any. -/
structure EngineOut where
  game : GameE
  mgr : MgrState
  events : List EventE
  result : ResultE
  draw : Option RandomDraw := none
deriving DecidableEq, Repr

namespace RoundEngine

/-- Embeds `TimerManager.broadcastTimerState` (part_003:155-176): copy the manager
timer into `public.timer` and emit TIMER_UPDATE. -/
def broadcastTimerState (g : GameE) (t : MgrTimer) : GameE × EventE :=
  ({ g with pub := { g.pub with timer := ⟨t.duration, t.remaining, t.tstate⟩ } },
   .TIMER_UPDATE t.remaining t.tstate)

/-- Embeds `RoundEngine.startRound` (part_003:195-242): set the round number, reset
both rooms' per-round fields (voting active only in round 1), and prepare the
timer: round 1 leaves it PAUSED at full duration without registering a
manager timer; rounds > 1 start it immediately. -/
def startRound (g : GameE) (mgr : MgrState) (roundNumber : Nat) : EngineOut :=
  let duration := g.roundDurations.getD (roundNumber - 1) 0
  let rA := { g.roomA with
              leaderVotes := [], leaderVotingActive := decide (roundNumber = 1),
              leaderVotingTieCount := 0, hostageCandidates := [],
              hostagesLocked := false }
  let rB := { g.roomB with
              leaderVotes := [], leaderVotingActive := decide (roundNumber = 1),
              leaderVotingTieCount := 0, hostageCandidates := [],
              hostagesLocked := false }
  let g1 := { g with
              roomA := rA, roomB := rB,
              pub := { g.pub with currentRound := roundNumber } }
  if roundNumber = 1 then
    { game := { g1 with pub := { g1.pub with timer := ⟨duration, duration, .PAUSED⟩ } },
      mgr := mgr,
      events := [.ROUND_STARTED roundNumber duration],
      result := .ok }
  else
    let t : MgrTimer := { duration := duration, remaining := duration, tstate := .RUNNING }
    let gv := broadcastTimerState g1 t
    { game := gv.1, mgr := some t,
      events := [gv.2, .ROUND_STARTED roundNumber duration],
      result := .ok }

/-- Resume-then-broadcast as `electLeader` does for rounds > 1: only a PAUSED
manager timer resumes (and then broadcasts its state). -/
def resumeAndBroadcast (g : GameE) (mgr : MgrState) : GameE × MgrState × List EventE :=
  match mgr with
  | some t =>
      if t.tstate = .PAUSED then
        let gv := broadcastTimerState g { t with tstate := .RUNNING }
        (gv.1, some { t with tstate := .RUNNING }, [gv.2])
      else (g, some t, [])
  | none => (g, none, [])

/-- Embeds `RoundEngine.electLeader` (part_003:410-493): demote any different old
leader, install the new one (room, public leaders map, player flags), publish
LEADER_ELECTED on the room scope; in round 1 start the round timer when both
rooms now have leaders; in rounds > 1 resume the timer when the vote replaced
an existing leader. -/
def electLeader (g : GameE) (mgr : MgrState) (roomId : RoomId) (leaderId : PlayerId)
    (method : ElectionMethod) : EngineOut :=
  let oldLeaderId := (g.room roomId).leaderId
  let g1 : GameE :=
    match oldLeaderId with
    | some old =>
        if old ≠ leaderId then
          g.updatePlayer old (fun p => { p with isLeader := false, canBeHostage := true })
        else g
    | none => g
  let room1 := { g1.room roomId with
                 leaderId := some leaderId, leaderVotingActive := false,
                 leaderVotingTieCount := 0 }
  let g2 : GameE := (g1.setRoom roomId room1).setLeader roomId (some leaderId)
  let g3 : GameE := g2.updatePlayer leaderId
      (fun p => { p with isLeader := true, canBeHostage := false })
  let evs := [EventE.LEADER_ELECTED roomId leaderId method]
  if g3.pub.currentRound = 1 then
    if g3.roomA.leaderId.isSome ∧ g3.roomB.leaderId.isSome then
      let duration := g3.roundDurations.getD 0 0
      let t : MgrTimer := { duration := duration, remaining := duration, tstate := .RUNNING }
      let gv := broadcastTimerState g3 t
      { game := gv.1, mgr := some t,
        events := evs ++ [gv.2, .GAME_RESUMED "Both leaders elected - round starting!"],
        result := .ok }
    else
      { game := g3, mgr := mgr, events := evs, result := .ok }
  else if 1 < g3.pub.currentRound ∧ oldLeaderId.isSome then
    let rb := resumeAndBroadcast g3 mgr
    let msg := if oldLeaderId ≠ some leaderId then "New leader elected - round resuming!"
               else "Leader vote completed - round resuming!"
    { game := rb.1, mgr := rb.2.1,
      events := evs ++ rb.2.2 ++ [.GAME_RESUMED msg],
      result := .ok }
  else
    { game := g3, mgr := mgr, events := evs, result := .ok }

/-- Embeds `Object.values(room.leaderVotes)` in insertion order. -/
def voteValues (room : RoomStateE) : List PlayerId :=
  room.leaderVotes.map Prod.snd

/-- The keys of the `voteCounts` object built in `resolveLeaderVote`
(part_003:356-359): candidates in order of first appearance among the vote
values. -/
def voteCandidates (room : RoomStateE) : List PlayerId :=
  (voteValues room).foldl (fun acc c => if acc.contains c then acc else acc ++ [c]) []

/-- Embeds `Math.max(...Object.values(voteCounts))`. -/
def maxVotes (room : RoomStateE) : Nat :=
  ((voteCandidates room).map (fun c => (voteValues room).count c)).foldl max 0

/-- The `winners` filter of `resolveLeaderVote` (part_003:363-365). -/
def voteWinners (room : RoomStateE) : List PlayerId :=
  (voteCandidates room).filter (fun c => (voteValues room).count c = maxVotes room)

/-- Embeds `RoundEngine.resolveLeaderVote` (part_003:352-405).  On a tie the source
increments `leaderVotingTieCount`; at the third tie it draws
`Math.floor(Math.random() * winners.length)` — the `Math.random` PRNG, not a
cryptographically strong source — and elects `winners[randomIndex]` with
method RANDOM_SELECTION; before the third tie it publishes the tie notice,
clears the votes, keeps voting active, and returns a non-fatal error carrying
the tie count and the tied candidates. -/
def resolveLeaderVote (g : GameE) (mgr : MgrState) (roomId : RoomId)
    (randomIndex : Nat) : EngineOut :=
  let room := g.room roomId
  let winners := voteWinners room
  if 1 < winners.length then
    let tieCount := room.leaderVotingTieCount + 1
    let gInc := g.setRoom roomId { room with leaderVotingTieCount := tieCount }
    if 3 ≤ tieCount then
      let selectedLeader := winners.getD randomIndex ""
      let out := electLeader gInc mgr roomId selectedLeader .RANDOM_SELECTION
      { out with draw := some { source := .mathRandom, index := randomIndex, pool := winners } }
    else
      let gRetry := gInc.setRoom roomId
        { gInc.room roomId with leaderVotes := [], leaderVotingActive := true }
      { game := gRetry, mgr := mgr,
        events := [.LEADER_TIE roomId tieCount winners],
        result := { success := false,
                    error := some ("Tie detected (" ++ toString tieCount ++
                                   "/3). Please vote again."),
                    ctx := some (.tieInfo tieCount winners) } }
  else
    electLeader g mgr roomId (winners.getD 0 "") .MAJORITY_VOTE

/-- Embeds `RoundEngine.nominateLeader` (part_003:301-347): record the vote
(re-votes overwrite), broadcast VOTE_CAST, and resolve when every room member
has voted. -/
def nominateLeader (g : GameE) (mgr : MgrState) (roomId : RoomId)
    (candidateId : PlayerId) (voterId : Option PlayerId) (randomIndex : Nat) :
    EngineOut :=
  let room := g.room roomId
  if room.leaderId.isSome ∧ ¬ room.leaderVotingActive then
    { game := g, mgr := mgr, events := [],
      result := .fail "Leader already exists. Use the new-vote button to start a new vote." }
  else if ¬ room.players.contains candidateId then
    { game := g, mgr := mgr, events := [], result := .fail "Candidate not in room" }
  else if (match voterId with
           | some v => ! room.players.contains v
           | none => false) then
    { game := g, mgr := mgr, events := [], result := .fail "Voter not in room" }
  else
    let actualVoterId := voterId.getD candidateId
    let votes1 := assocSet room.leaderVotes actualVoterId candidateId
    let g1 := g.setRoom roomId { room with leaderVotes := votes1 }
    let evs := [EventE.VOTE_CAST roomId votes1.length room.players.length]
    if votes1.length = room.players.length then
      let out := resolveLeaderVote g1 mgr roomId randomIndex
      { out with events := evs ++ out.events }
    else
      { game := g1, mgr := mgr, events := evs, result := .ok }

/-- Embeds `RoundEngine.selectHostage` (part_003:681-739): reject when locked;
toggle off an already-selected candidate; reject when the per-round limit is
reached; otherwise push the candidate. -/
def selectHostage (g : GameE) (mgr : MgrState) (roomId : RoomId)
    (hostageId : PlayerId) : EngineOut :=
  let room := g.room roomId
  if room.hostagesLocked then
    { game := g, mgr := mgr, events := [], result := .fail "Hostages already locked" }
  else
    let hostageCount := calculateHostageCount g.players.length g.pub.currentRound
    if room.hostageCandidates.contains hostageId then
      let room1 := { room with
                     hostageCandidates :=
                       room.hostageCandidates.filter (fun id => id ≠ hostageId) }
      { game := g.setRoom roomId room1, mgr := mgr,
        events := [.HOSTAGE_SELECTED roomId room1.hostageCandidates.length hostageCount true],
        result := .ok }
    else if hostageCount ≤ room.hostageCandidates.length then
      { game := g, mgr := mgr, events := [],
        result := .fail "Hostage limit reached. Deselect another hostage first." }
    else
      let room1 := { room with hostageCandidates := room.hostageCandidates ++ [hostageId] }
      { game := g.setRoom roomId room1, mgr := mgr,
        events := [.HOSTAGE_SELECTED roomId room1.hostageCandidates.length hostageCount false],
        result := .ok }

/-- First loop of `RoundEngine.exchangeHostages` (part_003:833-843): move
each hostage selected in room A to room B (skip ids absent from the players
map, as the source's `if (player)` does). -/
def moveHostagesAtoB : List PlayerId → GameE → GameE
  | [], g => g
  | pid :: rest, g =>
      let g1 :=
        match g.getPlayer pid with
        | some _ =>
            let gp := g.updatePlayer pid (fun p =>
              { p with currentRoom := some .ROOM_B, wasSentAsHostage := true })
            { gp with
              roomA := { gp.roomA with
                         players := gp.roomA.players.filter (fun id => id ≠ pid) },
              roomB := { gp.roomB with players := gp.roomB.players ++ [pid] } }
        | none => g
      moveHostagesAtoB rest g1

/-- Second loop of `RoundEngine.exchangeHostages` (part_003:845-855):
room B's hostages move to room A. -/
def moveHostagesBtoA : List PlayerId → GameE → GameE
  | [], g => g
  | pid :: rest, g =>
      let g1 :=
        match g.getPlayer pid with
        | some _ =>
            let gp := g.updatePlayer pid (fun p =>
              { p with currentRoom := some .ROOM_A, wasSentAsHostage := true })
            { gp with
              roomB := { gp.roomB with
                         players := gp.roomB.players.filter (fun id => id ≠ pid) },
              roomA := { gp.roomA with players := gp.roomA.players ++ [pid] } }
        | none => g
      moveHostagesBtoA rest g1

/-- Embeds `RoundEngine.exchangeHostages` (part_003:825-888): swap the locked
hostage lists between the rooms, refresh the public room-assignments map,
publish HOSTAGES_EXCHANGED, clear candidates/locked flags and the pause.
The trailing `endRound` call transitions the phase and does not touch room
membership; it is outside this definition. -/
def exchangeHostages (g : GameE) : GameE × List EventE :=
  let hostagesFromA := g.roomA.hostageCandidates
  let hostagesFromB := g.roomB.hostageCandidates
  let g1 := moveHostagesAtoB hostagesFromA g
  let g2 := moveHostagesBtoA hostagesFromB g1
  let newAssignments := g2.players.foldl (fun m p =>
      match p.currentRoom with
      | some r => assocSet m p.id r
      | none => m) g2.pub.roomAssignments
  let g3 := { g2 with pub := { g2.pub with roomAssignments := newAssignments } }
  let g4 := { g3 with
              roomA := { g3.roomA with hostageCandidates := [], hostagesLocked := false },
              roomB := { g3.roomB with hostageCandidates := [], hostagesLocked := false },
              pub := { g3.pub with paused := false, pauseReason := none } }
  (g4, [.HOSTAGES_EXCHANGED hostagesFromA hostagesFromB])

end RoundEngine

namespace GameController

/-- One iteration of the `assignRooms` loop (part_002:389-396): player at
index i goes to room A when `i < midpoint`, else room B; set
`player.currentRoom`, the public assignment map, and push onto the room's
member list. -/
def assignStep (midpoint i : Nat) (player : PlayerE) (acc : GameE) : GameE :=
  let room := if i < midpoint then RoomId.ROOM_A else RoomId.ROOM_B
  let acc1 := acc.updatePlayer player.id (fun p => { p with currentRoom := some room })
  let acc2 := { acc1 with
                pub := { acc1.pub with
                         roomAssignments :=
                           assocSet acc1.pub.roomAssignments player.id room } }
  acc2.setRoom room
    { acc2.room room with players := (acc2.room room).players ++ [player.id] }

/-- The `for (let i = 0; ...)` loop of `assignRooms`. -/
def assignLoop (midpoint i : Nat) : List PlayerE → GameE → GameE
  | [], acc => acc
  | player :: rest, acc =>
      assignLoop midpoint (i + 1) rest (assignStep midpoint i player acc)

/-- Embeds `GameController.assignRooms` (part_002:380-401): the players array after
the Fisher-Yates crypto shuffle is passed in; `midpoint = floor(n / 2)`. -/
def assignRooms (g : GameE) (shuffled : List PlayerE) : GameE :=
  assignLoop (shuffled.length / 2) 0 shuffled g

/-- Embeds `GameController.leaveGame` (part_002:136-179): remove the player from
the map; when the departing player was the host and players remain, promote
the first remaining player and update `private.hostId`; publish PLAYER_LEFT;
delete the game from the store (result `none`) when nobody remains. -/
def leaveGame (g : GameE) (playerId : PlayerId) :
    Option GameE × ResultE × List EventE :=
  match g.getPlayer playerId with
  | none => (some g, .fail "Player not found", [])
  | some player =>
      let players1 := g.players.filter (fun p => p.id ≠ playerId)
      let promoted :=
        if player.isHost ∧ 0 < players1.length then
          match players1 with
          | [] => (players1, g.hostId)
          | h :: rest => ({ h with isHost := true } :: rest, h.id)
        else (players1, g.hostId)
      let evs := [EventE.PLAYER_LEFT playerId promoted.1.length]
      if promoted.1.length = 0 then
        (none, .ok, evs)
      else
        (some { g with players := promoted.1, hostId := promoted.2 }, .ok, evs)

/-- Embeds `GameController.selectHostage` (part_002:505-527): the only checks before
delegating to `RoundEngine.selectHostage` are that the game and the acting
player exist and that the actor `isLeader`; the target is not validated. -/
def selectHostage (g : GameE) (mgr : MgrState) (playerId : PlayerId)
    (roomId : RoomId) (hostageId : PlayerId) : EngineOut :=
  match g.getPlayer playerId with
  | none =>
      { game := g, mgr := mgr, events := [],
        result := .fail "Only leader can select hostages" }
  | some player =>
      if ¬ player.isLeader then
        { game := g, mgr := mgr, events := [],
          result := .fail "Only leader can select hostages" }
      else
        RoundEngine.selectHostage g mgr roomId hostageId

end GameController

namespace ActionValidator

/-- Embeds `ActionValidator.validateHostageSelection` (part_004:384-453): the
action-request validator's hostage rules — leader only, target present, not
the leader themself, same room as the leader, limit not reached.  This
validator exists in the source but is never invoked on the SELECT_HOSTAGE
path: the websocket handler calls `GameController.selectHostage` directly.
(On a leader the source's `player.currentRoom!` non-null assertion always
holds; the none branch below skips the limit check the source would crash
on.) -/
def validateHostageSelection (player : PlayerE) (targetPlayerId : Option PlayerId)
    (g : GameE) : List ValidationError :=
  if ¬ player.isLeader then
    [{ code := "NOT_LEADER", message := "Only leaders can select hostages",
       severity := "ERROR" }]
  else
    match targetPlayerId with
    | none =>
        [{ code := "MISSING_TARGET", message := "No target player specified",
           severity := "ERROR" }]
    | some tid =>
        let selfErr :=
          if tid = player.id then
            [{ code := "INVALID_TARGET",
               message := "Leaders cannot select themselves as hostages",
               severity := "ERROR" }]
          else []
        match g.getPlayer tid with
        | none =>
            selfErr ++ [{ code := "PLAYER_NOT_FOUND",
                          message := "Target player not found", severity := "ERROR" }]
        | some target =>
            let roomErr :=
              if target.currentRoom ≠ player.currentRoom then
                [{ code := "WRONG_ROOM",
                   message := "Can only select hostages from your own room",
                   severity := "ERROR" }]
              else []
            match player.currentRoom with
            | some pr =>
                let room := g.room pr
                let hostageCount := getHostageCount g.players.length g.pub.currentRound
                let limitErr :=
                  if hostageCount ≤ room.hostageCandidates.length then
                    [{ code := "HOSTAGE_LIMIT_REACHED",
                       message := "Already selected the hostages for this round",
                       severity := "ERROR" }]
                  else []
                selfErr ++ roomErr ++ limitErr
            | none => selfErr ++ roomErr

end ActionValidator

/-- The opposite room. -/
def otherRoom : RoomId → RoomId
  | .ROOM_A => .ROOM_B
  | .ROOM_B => .ROOM_A

-- ============================================================================
-- Concrete six-player game used for the closed evaluations
-- ============================================================================

/-- A player record as `createPlayer` (GameState.ts:166-192) initialises it,
with room and leader flags as later mutated. -/
def mkPlayer (id nm : String) (host : Bool) (room : Option RoomId) (leader : Bool) :
    PlayerE :=
  { id := id, name := nm, isHost := host, currentRole := none, originalRole := none,
    currentRoom := room, isLeader := leader, canBeHostage := ¬ leader, alive := true,
    wasSentAsHostage := false, usurpedLeadersCount := 0 }

/-- A six-player game in round 1: rooms split 3/3, room A's leader is p1,
room B has not elected yet. -/
def g6 : GameE :=
  { players := [mkPlayer "p1" "Alice" true (some .ROOM_A) true,
                mkPlayer "p2" "Bob" false (some .ROOM_A) false,
                mkPlayer "p3" "Carol" false (some .ROOM_A) false,
                mkPlayer "p4" "Dan" false (some .ROOM_B) false,
                mkPlayer "p5" "Eve" false (some .ROOM_B) false,
                mkPlayer "p6" "Frank" false (some .ROOM_B) false],
    roomA := { players := ["p1", "p2", "p3"], leaderId := some "p1", leaderVotes := [],
               leaderVotingActive := false, leaderVotingTieCount := 0,
               hostageCandidates := [], hostagesLocked := false },
    roomB := { players := ["p4", "p5", "p6"], leaderId := none, leaderVotes := [],
               leaderVotingActive := true, leaderVotingTieCount := 0,
               hostageCandidates := [], hostagesLocked := false },
    pub := { currentRound := 1, leaderA := some "p1", leaderB := none,
             timer := ⟨300000, 300000, .PAUSED⟩, paused := false, pauseReason := none,
             parlayActive := false, roomAssignments := [] },
    roundDurations := [300000, 300000, 300000],
    buryCard := false,
    hostId := "p1" }

/-- Room A's leader record in `g6`. -/
def p1E : PlayerE := mkPlayer "p1" "Alice" true (some .ROOM_A) true

/-- Game `g6` at room A's third consecutive tied leader vote: no leader yet,
`leaderVotingTieCount = 2`, and a completed three-way-tie vote. -/
def g6tie : GameE :=
  { g6 with
    roomA := { g6.roomA with
               leaderId := none, leaderVotingActive := true,
               leaderVotingTieCount := 2,
               leaderVotes := [("p1", "p1"), ("p2", "p2"), ("p3", "p3")] } }

/-- Game `g6tie` at the first tied vote (`leaderVotingTieCount = 0`). -/
def g6tie0 : GameE :=
  { g6 with
    roomA := { g6.roomA with
               leaderId := none, leaderVotingActive := true,
               leaderVotingTieCount := 0,
               leaderVotes := [("p1", "p1"), ("p2", "p2"), ("p3", "p3")] } }

/-- Game `g6` immediately before room assignment: both member lists empty. -/
def g6pre : GameE :=
  { g6 with
    roomA := { g6.roomA with players := [], leaderId := none },
    roomB := { g6.roomB with players := [], leaderId := none } }

/-- Game `g6` with both rooms' hostages selected and locked (limit 1 per room in
round 1 of a six-player game): p2 from room A, p4 from room B. -/
def g6x : GameE :=
  { g6 with
    roomA := { g6.roomA with hostageCandidates := ["p2"], hostagesLocked := true },
    roomB := { g6.roomB with hostageCandidates := ["p4"], hostagesLocked := true } }

/-- Game `g6` after room A's leader exploited the unvalidated SELECT_HOSTAGE
path to select room B's member p4 and lock, while room B also selected and
locked p4: both rooms hold the locked hostage list ["p4"] (length 1 = the
round-1 limit for six players), but room A's entry is not one of its own
members. -/
def g6bad : GameE :=
  { g6 with
    roomA := { g6.roomA with hostageCandidates := ["p4"], hostagesLocked := true },
    roomB := { g6.roomB with hostageCandidates := ["p4"], hostagesLocked := true } }

/-- An 11-player game in round 1 (required hostage count 2): rooms split 6/5,
room A's leader p1 has legitimately selected the two hostages p2 and p3, and
the hostages are not yet locked. -/
def g11 : GameE :=
  { players := [mkPlayer "p1" "Alice" true (some .ROOM_A) true,
                mkPlayer "p2" "Bob" false (some .ROOM_A) false,
                mkPlayer "p3" "Carol" false (some .ROOM_A) false,
                mkPlayer "p4" "Dan" false (some .ROOM_A) false,
                mkPlayer "p5" "Eve" false (some .ROOM_A) false,
                mkPlayer "p6" "Frank" false (some .ROOM_A) false,
                mkPlayer "p7" "Grace" false (some .ROOM_B) true,
                mkPlayer "p8" "Heidi" false (some .ROOM_B) false,
                mkPlayer "p9" "Ivan" false (some .ROOM_B) false,
                mkPlayer "p10" "Judy" false (some .ROOM_B) false,
                mkPlayer "p11" "Karl" false (some .ROOM_B) false],
    roomA := { players := ["p1", "p2", "p3", "p4", "p5", "p6"], leaderId := some "p1",
               leaderVotes := [], leaderVotingActive := false, leaderVotingTieCount := 0,
               hostageCandidates := ["p2", "p3"], hostagesLocked := false },
    roomB := { players := ["p7", "p8", "p9", "p10", "p11"], leaderId := some "p7",
               leaderVotes := [], leaderVotingActive := false, leaderVotingTieCount := 0,
               hostageCandidates := [], hostagesLocked := false },
    pub := { currentRound := 1, leaderA := some "p1", leaderB := some "p7",
             timer := ⟨300000, 120000, .RUNNING⟩, paused := false, pauseReason := none,
             parlayActive := false, roomAssignments := [] },
    roundDurations := [300000, 300000, 300000],
    buryCard := false,
    hostId := "p1" }

/-- One subscription per player of `g6`. -/
def g6subs : List EventBus.Subscription :=
  [⟨"s1", "g6", some "p1"⟩, ⟨"s2", "g6", some "p2"⟩, ⟨"s3", "g6", some "p3"⟩,
   ⟨"s4", "g6", some "p4"⟩, ⟨"s5", "g6", some "p5"⟩, ⟨"s6", "g6", some "p6"⟩]

/-- Claim C7: For every player count n with 6 ≤ n ≤ 30 and every round r ≥ 1 the
required hostage count is: 1 for 6 ≤ n ≤ 10 in every round; for 11 ≤ n ≤ 21,
2 in round 1 and 1 afterwards; for n ≥ 22, 3 in round 1, 2 in round 2 and 1
afterwards — and `calculateHostageCount` (core helper) and the action
validator's `getHostageCount` agree on every input. -/
theorem hostage_count_table_and_agreement (n r : Nat)
    (hn6 : 6 ≤ n) (hn30 : n ≤ 30) (hr : 1 ≤ r) :
    ((6 ≤ n ∧ n ≤ 10) → calculateHostageCount n r = 1) ∧
    ((11 ≤ n ∧ n ≤ 21) →
      calculateHostageCount n r = (if r = 1 then 2 else 1)) ∧
    (22 ≤ n →
      calculateHostageCount n r =
        (if r = 1 then 3 else if r = 2 then 2 else 1)) ∧
    (∀ m s : Nat, calculateHostageCount m s = ActionValidator.getHostageCount m s) := by
  refine ⟨?_, ?_, ?_, ?_⟩
  · intro h
    unfold calculateHostageCount
    rw [if_pos h]
  · intro h
    unfold calculateHostageCount
    rw [if_neg (by omega), if_pos h]
  · intro h
    unfold calculateHostageCount
    rw [if_neg (by omega), if_neg (by omega), if_pos h]
  · intro m s
    unfold calculateHostageCount ActionValidator.getHostageCount
    rfl

/-- Witness for C7: instantiation at n = 22, r = 2. -/
theorem hostage_count_table_and_agreement_witness :
    calculateHostageCount 22 2 = 2 ∧ ActionValidator.getHostageCount 22 2 = 2 := by
  have h := hostage_count_table_and_agreement 22 2 (by decide) (by decide) (by decide)
  refine ⟨?_, ?_⟩
  · have := h.2.2.1 (by decide)
    simpa using this
  · have := (h.2.2.2 22 2).symm.trans (h.2.2.1 (by decide))
    simpa using this

-- ============================================================================
-- C6: journal sequence numbers
-- ============================================================================

/-- Helper: after n publishes the counter is n and the journal holds the most
recent min(n,1000) events, whose sequence numbers are the contiguous range
ending at n. -/
theorem publishN_journal (n : Nat) :
    (EventBus.publishN n).seqCounter = n ∧
    EventBus.journalSeqs (EventBus.publishN n) =
      List.range' (n + 1 - min n 1000) (min n 1000) := by
  induction n with
  | zero =>
    exact ⟨rfl, rfl⟩
  | succ n ih =>
    obtain ⟨hc, hl⟩ := ih
    have hlen : (EventBus.publishN n).eventLog.length = min n 1000 := by
      have h1 := congrArg List.length hl
      simpa [EventBus.journalSeqs] using h1
    have hstep : EventBus.publishN (n + 1) =
        EventBus.logEvent
          { EventBus.publishN n with seqCounter := n + 1 }
          { sequenceNumber := n + 1, etype := "TEST_EVENT", scope := .publicScope } := by
      simp [EventBus.publishN, EventBus.broadcast, EventBus.getNextSequenceNumber, hc]
    have hcount : (EventBus.publishN (n + 1)).seqCounter = n + 1 := by
      rw [hstep]
      unfold EventBus.logEvent
      split <;> rfl
    by_cases hn : n < 1000
    · have hlog : (EventBus.publishN (n + 1)).eventLog =
          (EventBus.publishN n).eventLog ++
            [({ sequenceNumber := n + 1, etype := "TEST_EVENT",
                scope := .publicScope } : EventBus.GameEvent)] := by
        rw [hstep]
        unfold EventBus.logEvent
        rw [if_neg]
        simp only [List.length_append, List.length_cons, List.length_nil, hlen]
        omega
      refine ⟨hcount, ?_⟩
      have hmap : EventBus.journalSeqs (EventBus.publishN (n + 1)) =
          EventBus.journalSeqs (EventBus.publishN n) ++ [n + 1] := by
        unfold EventBus.journalSeqs
        rw [hlog, List.map_append]
        rfl
      rw [hmap, hl]
      have e1 : n + 1 - min n 1000 = 1 := by omega
      have e2 : min n 1000 = n := by omega
      have e3 : min (n + 1) 1000 = n + 1 := by omega
      have e4 : n + 1 + 1 - (n + 1) = 1 := by omega
      rw [e1, e2, e3, e4]
      have hconcat := List.range'_1_concat 1 n
      have e5 : 1 + n = n + 1 := by omega
      rw [e5] at hconcat
      rw [← hconcat]
    · have hge : 1000 ≤ n := by omega
      have hlog : (EventBus.publishN (n + 1)).eventLog =
          ((EventBus.publishN n).eventLog ++
            [({ sequenceNumber := n + 1, etype := "TEST_EVENT",
                scope := .publicScope } : EventBus.GameEvent)]).tail := by
        rw [hstep]
        unfold EventBus.logEvent
        rw [if_pos]
        simp only [List.length_append, List.length_cons, List.length_nil, hlen]
        omega
      refine ⟨hcount, ?_⟩
      have hmap : EventBus.journalSeqs (EventBus.publishN (n + 1)) =
          (EventBus.journalSeqs (EventBus.publishN n) ++ [n + 1]).tail := by
        unfold EventBus.journalSeqs
        rw [hlog, List.map_tail, List.map_append]
        rfl
      rw [hmap, hl]
      have e1 : n + 1 - min n 1000 = n - 999 := by omega
      have e2 : min n 1000 = 1000 := by omega
      rw [e1, e2]
      have hsplit := List.range'_succ (n - 999) 999 1
      have e3 : n - 999 + 1 = n - 998 := by omega
      rw [e3] at hsplit
      rw [show (1000 : Nat) = 999 + 1 from rfl, hsplit, List.cons_append, List.tail_cons]
      have hconcat := List.range'_1_concat (n - 998) 999
      have e4 : n - 998 + 999 = n + 1 := by omega
      rw [e4] at hconcat
      rw [← hconcat]
      have e5 : min (n + 1) (999 + 1) = 999 + 1 := by omega
      have e6 : n + 1 + 1 - (999 + 1) = n - 998 := by omega
      rw [e5, e6]

/-- Claim C6 (corrected): Sequence numbers are assigned contiguously 1,2,…,N
(the first publish gets 1, each publish the previous number plus one), but
the journal retains only the most recent min(N,1000) events: after N
publishes its sequence numbers form the contiguous range
(N+1−min(N,1000))…N — which is 1…N exactly when N ≤ 1000. -/
theorem journal_retains_last_1000 (n : Nat) :
    EventBus.journalSeqs (EventBus.publishN n) =
      List.range' (n + 1 - min n 1000) (min n 1000) :=
  (publishN_journal n).2

/-- Claim C6 counterexample: After N = 1001 publishes the journal's sequence
numbers are 2…1001, not the contiguous range 1…1001 claimed: the entry with
sequence number 1 has been evicted. -/
theorem journal_drops_seq_one_at_1001 :
    EventBus.journalSeqs (EventBus.publishN 1001) ≠ List.range' 1 1001 ∧
    1 ∉ EventBus.journalSeqs (EventBus.publishN 1001) := by
  have h := (publishN_journal 1001).2
  have hmin : min 1001 1000 = 1000 := by omega
  rw [hmin] at h
  have harg : 1001 + 1 - 1000 = 2 := by omega
  rw [harg] at h
  constructor
  · rw [h]
    intro hcontr
    have := congrArg List.length hcontr
    simp [List.length_range'] at this
  · rw [h]
    intro hcontr
    rw [List.mem_range'_1] at hcontr
    omega

-- ============================================================================
-- C1: role-count validation under buryCard
-- ============================================================================

/-- Claim C1 (code bug): With 6 players and `buryCard = true` the validator
rejects a 7-role deck (the n + 1 size the spec mandates) with
ROLE_COUNT_MISMATCH, and instead accepts a 5-role deck (n − 1): the source
computes `expectedCount = buryCard ? playerCount - 1 : playerCount`.  The
accepted 5-role deck contradicts the code's own `distributeRoles`, which
buries a card only when roles exceed players — so nothing is buried and the
sixth player is left with no role — while the spec-mandated 7-role deck
distributes cleanly: one card buried, every player assigned a role. -/
theorem roleCount_bury_bug :
    ((RoleConfigurationValidator.validate c1Catalogue roles7 6 true).errors.map
        (fun e => e.code) = ["ROLE_COUNT_MISMATCH"]) ∧
    (RoleConfigurationValidator.validate c1Catalogue roles7 6 true).valid = false ∧
    (RoleConfigurationValidator.validate c1Catalogue roles5 6 true).valid = true ∧
    (GameController.distributeRoles roles5 players6 true).buriedCard = none ∧
    ((GameController.distributeRoles roles5 players6 true).assignments.getD 5
        ("", none)).2 = none ∧
    (GameController.distributeRoles roles7 players6 true).buriedCard = some "gambler" ∧
    (∀ a ∈ (GameController.distributeRoles roles7 players6 true).assignments,
        a.2 ≠ none) := by
  decide

-- ============================================================================
-- Helper lemmas on the game model
-- ============================================================================

@[simp] theorem room_setRoom_same (g : GameE) (r : RoomId) (rm : RoomStateE) :
    (g.setRoom r rm).room r = rm := by
  cases r <;> rfl

@[simp] theorem players_setRoom (g : GameE) (r : RoomId) (rm : RoomStateE) :
    (g.setRoom r rm).players = g.players := by
  cases r <;> rfl

@[simp] theorem pub_setRoom (g : GameE) (r : RoomId) (rm : RoomStateE) :
    (g.setRoom r rm).pub = g.pub := by
  cases r <;> rfl

@[simp] theorem durations_setRoom (g : GameE) (r : RoomId) (rm : RoomStateE) :
    (g.setRoom r rm).roundDurations = g.roundDurations := by
  cases r <;> rfl

@[simp] theorem room_updatePlayer (g : GameE) (pid : PlayerId) (f : PlayerE → PlayerE)
    (r : RoomId) : (g.updatePlayer pid f).room r = g.room r := by
  cases r <;> rfl

@[simp] theorem pub_updatePlayer (g : GameE) (pid : PlayerId) (f : PlayerE → PlayerE) :
    (g.updatePlayer pid f).pub = g.pub := rfl

@[simp] theorem durations_updatePlayer (g : GameE) (pid : PlayerId)
    (f : PlayerE → PlayerE) : (g.updatePlayer pid f).roundDurations = g.roundDurations := rfl

@[simp] theorem room_setLeader (g : GameE) (r' : RoomId) (v : Option PlayerId)
    (r : RoomId) : (g.setLeader r' v).room r = g.room r := by
  cases r' <;> cases r <;> rfl

@[simp] theorem roomA_setLeader (g : GameE) (r' : RoomId) (v : Option PlayerId) :
    (g.setLeader r' v).roomA = g.roomA := by
  cases r' <;> rfl

@[simp] theorem roomB_setLeader (g : GameE) (r' : RoomId) (v : Option PlayerId) :
    (g.setLeader r' v).roomB = g.roomB := by
  cases r' <;> rfl

@[simp] theorem currentRound_setLeader (g : GameE) (r' : RoomId) (v : Option PlayerId) :
    (g.setLeader r' v).pub.currentRound = g.pub.currentRound := by
  cases r' <;> rfl

@[simp] theorem durations_setLeader (g : GameE) (r' : RoomId) (v : Option PlayerId) :
    (g.setLeader r' v).roundDurations = g.roundDurations := by
  cases r' <;> rfl

-- ============================================================================
-- C3: SELECT_HOSTAGE target validation
-- ============================================================================

/-- Claim C3 (code bug): A SELECT_HOSTAGE command naming a target in the other
room is accepted, not rejected: `GameController.selectHostage` only checks
that the acting player is a leader and `RoundEngine.selectHostage` never
inspects the target, so room A's leader p1 selecting p4 — a member of room B,
not of room A — succeeds and pushes p4 onto room A's `hostageCandidates`.
The repository's own `ActionValidator.validateHostageSelection` would flag
exactly this input with WRONG_ROOM, but nothing on the SELECT_HOSTAGE path
invokes it. -/
theorem selectHostage_cross_room_accepted :
    (GameController.selectHostage g6 none "p1" .ROOM_A "p4").result.success = true ∧
    (GameController.selectHostage g6 none "p1" .ROOM_A "p4").game.roomA.hostageCandidates
      = ["p4"] ∧
    g6.roomA.players.contains "p4" = false ∧
    g6.roomB.players.contains "p4" = true ∧
    (ActionValidator.validateHostageSelection p1E (some "p4") g6).map
      (fun e => e.code) = ["WRONG_ROOM"] := by
  decide

-- ============================================================================
-- C2: room-scoped event delivery
-- ============================================================================

/-- Claim C2 (code bug): `EventBus.shouldReceiveEvent` returns `true` for every
subscriber whenever the scope is a room id — membership is never consulted
(the source's own comment reads "TODO: Check if player is in this room").
Concretely: p4 is a member of room B and not of room A, yet p4's subscription
receives a ROOM_A-scoped event, and a ROOM_A broadcast is delivered to all
six subscribers of the game. -/
theorem room_scope_delivery_ignores_membership :
    (∀ (sub : EventBus.Subscription) (r : RoomId),
        EventBus.shouldReceiveEvent sub (.room r) = true) ∧
    g6.roomB.players.contains "p4" = true ∧
    g6.roomA.players.contains "p4" = false ∧
    EventBus.shouldReceiveEvent ⟨"s4", "g6", some "p4"⟩ (.room .ROOM_A) = true ∧
    EventBus.deliveredTo g6subs (.room .ROOM_A) = g6subs := by
  refine ⟨fun sub r => rfl, by decide, by decide, by decide, by decide⟩

-- ============================================================================
-- C4: tied leader votes
-- ============================================================================

/-- Claim C4 counterexample: At the third consecutive tie (room A of `g6tie`,
`leaderVotingTieCount = 2`, three-way tie) the leader is indeed drawn from
the tied candidates — but the draw reads `Math.random()`
(`Math.floor(Math.random() * winners.length)`), not a cryptographically
strong source as the claim states. -/
theorem leader_tie_break_uses_math_random :
    (RoundEngine.resolveLeaderVote g6tie none .ROOM_A 0).draw =
      some { source := .mathRandom, index := 0, pool := ["p1", "p2", "p3"] } ∧
    RandSource.mathRandom ≠ RandSource.cryptoStrong := by
  decide

/-- Helper: `electLeader` always installs the given leader in the given room
and publishes LEADER_ELECTED with the given method, in every branch. -/
theorem electLeader_basic (g : GameE) (mgr : MgrState) (roomId : RoomId)
    (pid : PlayerId) (method : ElectionMethod) :
    ((RoundEngine.electLeader g mgr roomId pid method).game.room roomId).leaderId
        = some pid ∧
    EventE.LEADER_ELECTED roomId pid method
        ∈ (RoundEngine.electLeader g mgr roomId pid method).events := by
  cases roomId <;>
  · unfold RoundEngine.electLeader RoundEngine.resumeAndBroadcast
      RoundEngine.broadcastTimerState
    dsimp only
    constructor
    · repeat' split
      all_goals
        simp [GameE.setRoom, GameE.room, GameE.setLeader, GameE.updatePlayer]
    · repeat' split
      all_goals simp

/-- Claim C4 (corrected): When a leader vote resolves with more than one
candidate tied at the maximum count, `leaderVotingTieCount` is incremented;
once it reaches 3 the leader is picked from exactly the tied candidates using
`Math.random` — the source draws `Math.floor(Math.random() * winners.length)`,
which is not a cryptographically strong source — and is elected with method
RANDOM_SELECTION; before that the votes are cleared, voting remains active,
and a non-fatal error carrying the tie count and the tied candidates is
returned. -/
theorem tied_vote_behaviour (g : GameE) (mgr : MgrState) (roomId : RoomId) (ridx : Nat)
    (hwin : 1 < (RoundEngine.voteWinners (g.room roomId)).length)
    (hidx : ridx < (RoundEngine.voteWinners (g.room roomId)).length) :
    (3 ≤ (g.room roomId).leaderVotingTieCount + 1 →
      (RoundEngine.resolveLeaderVote g mgr roomId ridx).draw =
        some { source := RandSource.mathRandom, index := ridx,
               pool := RoundEngine.voteWinners (g.room roomId) } ∧
      ((RoundEngine.resolveLeaderVote g mgr roomId ridx).game.room roomId).leaderId =
        some ((RoundEngine.voteWinners (g.room roomId)).getD ridx "") ∧
      (RoundEngine.voteWinners (g.room roomId)).getD ridx ""
        ∈ RoundEngine.voteWinners (g.room roomId) ∧
      EventE.LEADER_ELECTED roomId
          ((RoundEngine.voteWinners (g.room roomId)).getD ridx "")
          ElectionMethod.RANDOM_SELECTION
        ∈ (RoundEngine.resolveLeaderVote g mgr roomId ridx).events) ∧
    ((g.room roomId).leaderVotingTieCount + 1 < 3 →
      ((RoundEngine.resolveLeaderVote g mgr roomId ridx).game.room roomId).leaderVotingTieCount
        = (g.room roomId).leaderVotingTieCount + 1 ∧
      ((RoundEngine.resolveLeaderVote g mgr roomId ridx).game.room roomId).leaderVotes = [] ∧
      ((RoundEngine.resolveLeaderVote g mgr roomId ridx).game.room roomId).leaderVotingActive
        = true ∧
      (RoundEngine.resolveLeaderVote g mgr roomId ridx).result.success = false ∧
      (RoundEngine.resolveLeaderVote g mgr roomId ridx).result.ctx =
        some (ErrCtx.tieInfo ((g.room roomId).leaderVotingTieCount + 1)
               (RoundEngine.voteWinners (g.room roomId))) ∧
      EventE.LEADER_TIE roomId ((g.room roomId).leaderVotingTieCount + 1)
          (RoundEngine.voteWinners (g.room roomId))
        ∈ (RoundEngine.resolveLeaderVote g mgr roomId ridx).events) := by
  have hmem : (RoundEngine.voteWinners (g.room roomId)).getD ridx ""
      ∈ RoundEngine.voteWinners (g.room roomId) := by
    have he : (RoundEngine.voteWinners (g.room roomId)).getD ridx ""
        = (RoundEngine.voteWinners (g.room roomId))[ridx] := by
      rw [List.getD_eq_getElem?_getD, List.getElem?_eq_getElem hidx]
      rfl
    rw [he]
    exact List.getElem_mem hidx
  constructor
  · intro h3
    have hel := electLeader_basic
      (g.setRoom roomId
        { g.room roomId with
          leaderVotingTieCount := (g.room roomId).leaderVotingTieCount + 1 })
      mgr roomId ((RoundEngine.voteWinners (g.room roomId)).getD ridx "")
      ElectionMethod.RANDOM_SELECTION
    unfold RoundEngine.resolveLeaderVote
    dsimp only
    rw [if_pos hwin, if_pos h3]
    exact ⟨rfl, hel.1, hmem, hel.2⟩
  · intro h3
    unfold RoundEngine.resolveLeaderVote
    dsimp only
    rw [if_pos hwin, if_neg (by omega)]
    refine ⟨?_, ?_, ?_, rfl, rfl, by simp⟩
    · simp
    · simp
    · simp

/-- Witness for C4: the first tie in room A of `g6tie0` increments the tie
count, clears the votes and returns a non-fatal error. -/
theorem tied_vote_behaviour_witness :
    ((RoundEngine.resolveLeaderVote g6tie0 none .ROOM_A 1).game.room .ROOM_A).leaderVotingTieCount
      = (g6tie0.room .ROOM_A).leaderVotingTieCount + 1 ∧
    ((RoundEngine.resolveLeaderVote g6tie0 none .ROOM_A 1).game.room .ROOM_A).leaderVotes
      = [] ∧
    (RoundEngine.resolveLeaderVote g6tie0 none .ROOM_A 1).result.success = false := by
  have h := (tied_vote_behaviour g6tie0 none .ROOM_A 1 (by decide) (by decide)).2 (by decide)
  exact ⟨h.1, h.2.1, h.2.2.2.1⟩

/-- Claim C8: Round-1 timer ignition: `startRound` for round 1 leaves the
public timer PAUSED with `remaining = duration` (the configured round-1
duration) and registers no manager timer; `electLeader` in a round-1 game
starts the round timer with the configured round-1 duration exactly when the
other room already has a leader (i.e. when the second room's leader is
elected), publishing GAME_RESUMED — and leaves the manager timer untouched
while the other room still has none. -/
theorem round1_timer_ignition (g : GameE) (mgr : MgrState) (roomId : RoomId)
    (pid : PlayerId) (method : ElectionMethod) (h1 : g.pub.currentRound = 1) :
    ((RoundEngine.startRound g mgr 1).game.pub.timer =
        ⟨g.roundDurations.getD 0 0, g.roundDurations.getD 0 0, .PAUSED⟩ ∧
     (RoundEngine.startRound g mgr 1).mgr = mgr) ∧
    ((g.room (otherRoom roomId)).leaderId.isSome = true →
      (RoundEngine.electLeader g mgr roomId pid method).mgr =
        some ⟨g.roundDurations.getD 0 0, g.roundDurations.getD 0 0, .RUNNING⟩ ∧
      (RoundEngine.electLeader g mgr roomId pid method).game.pub.timer =
        ⟨g.roundDurations.getD 0 0, g.roundDurations.getD 0 0, .RUNNING⟩ ∧
      EventE.GAME_RESUMED "Both leaders elected - round starting!"
        ∈ (RoundEngine.electLeader g mgr roomId pid method).events) ∧
    ((g.room (otherRoom roomId)).leaderId = none →
      (RoundEngine.electLeader g mgr roomId pid method).mgr = mgr ∧
      (RoundEngine.electLeader g mgr roomId pid method).game.pub.timer = g.pub.timer) := by
  refine ⟨⟨?_, ?_⟩, ?_, ?_⟩
  · unfold RoundEngine.startRound
    dsimp only
    rw [if_pos rfl]
  · unfold RoundEngine.startRound
    dsimp only
    rw [if_pos rfl]
  · intro hother
    cases roomId <;>
    · unfold RoundEngine.electLeader RoundEngine.broadcastTimerState
      dsimp only [GameE.room, otherRoom] at hother ⊢
      rcases hold : g.roomA.leaderId with _ | oldA <;>
        rcases holdB : g.roomB.leaderId with _ | oldB <;>
          simp_all [GameE.setRoom, GameE.setLeader, GameE.updatePlayer, h1] <;>
            split <;> simp_all
  · intro hother
    cases roomId <;>
    · unfold RoundEngine.electLeader RoundEngine.broadcastTimerState
      dsimp only [GameE.room, otherRoom] at hother ⊢
      rcases hold : g.roomA.leaderId with _ | oldA <;>
        rcases holdB : g.roomB.leaderId with _ | oldB <;>
          simp_all [GameE.setRoom, GameE.setLeader, GameE.updatePlayer, h1] <;>
            split <;> simp_all

/-- Witness for C8: in `g6` (round 1, room A led by p1, room B leaderless)
electing p4 in room B starts the manager timer with the round-1 duration and
publishes GAME_RESUMED. -/
theorem round1_timer_ignition_witness :
    (RoundEngine.electLeader g6 none .ROOM_B "p4" .MAJORITY_VOTE).mgr =
      some ⟨300000, 300000, .RUNNING⟩ ∧
    EventE.GAME_RESUMED "Both leaders elected - round starting!"
      ∈ (RoundEngine.electLeader g6 none .ROOM_B "p4" .MAJORITY_VOTE).events ∧
    (RoundEngine.startRound g6 none 1).mgr = none := by
  have h := round1_timer_ignition g6 none .ROOM_B "p4" .MAJORITY_VOTE (by decide)
  have h2 := h.2.1 (by decide)
  exact ⟨h2.1, h2.2.2, h.1.2⟩

/-- Helper: filtering out an element that occurs in the list strictly
shortens it. -/
theorem filter_ne_length_lt (l : List PlayerId) (p : PlayerId) (h : p ∈ l) :
    (l.filter (fun id => id ≠ p)).length < l.length := by
  induction l with
  | nil => simp at h
  | cons a t ih =>
    by_cases hap : a = p
    · subst hap
      have hle := List.length_filter_le (fun id => decide (id ≠ a)) t
      simp only [List.filter_cons, ne_eq, decide_not, Bool.not_eq_eq_eq_not, Bool.not_true,
        decide_eq_false_iff_not, Decidable.not_not]
      simp only [List.length_cons]
      split
      · rename_i hcond
        simp at hcond
      · simp only [ne_eq, decide_not] at hle
        omega
    · rcases List.mem_cons.mp h with h1 | h2
      · exact absurd h1.symm hap
      · have := ih h2
        simp only [List.filter_cons]
        split
        · simp only [List.length_cons]
          omega
        · rename_i hcond
          simp [hap] at hcond

/-- Claim C9 (amended): with hostages not yet locked and the candidate list
within the current per-round limit — a proviso the original claim lacks, and
which a mid-round `leaveGame` can break by shrinking the player count and
with it the limit — toggling the same target twice leaves the room's
`hostageCandidates` unchanged as a set: the first call removes an already
selected player or adds an unselected one (or rejects at the limit), and the
second call undoes it. -/
theorem selectHostage_toggle_noop (g : GameE) (mgr : MgrState) (roomId : RoomId)
    (p : PlayerId)
    (hlock : (g.room roomId).hostagesLocked = false)
    (hlen : (g.room roomId).hostageCandidates.length ≤
            calculateHostageCount g.players.length g.pub.currentRound) :
    ∀ x, (x ∈ ((RoundEngine.selectHostage
              (RoundEngine.selectHostage g mgr roomId p).game
              (RoundEngine.selectHostage g mgr roomId p).mgr roomId p).game.room
                roomId).hostageCandidates
        ↔ x ∈ (g.room roomId).hostageCandidates) := by
  intro x
  by_cases hp : p ∈ (g.room roomId).hostageCandidates
  · -- first call removes p, second call re-adds it
    have h1 : RoundEngine.selectHostage g mgr roomId p =
        { game := g.setRoom roomId
            { g.room roomId with
              hostageCandidates :=
                (g.room roomId).hostageCandidates.filter (fun id => id ≠ p) },
          mgr := mgr,
          events := [EventE.HOSTAGE_SELECTED roomId
            ((g.room roomId).hostageCandidates.filter (fun id => id ≠ p)).length
            (calculateHostageCount g.players.length g.pub.currentRound) true],
          result := .ok } := by
      unfold RoundEngine.selectHostage
      dsimp only
      rw [if_neg (by simp [hlock]), if_pos (by simpa using hp)]
    rw [h1]
    have hnp : ¬ (p ∈ (g.room roomId).hostageCandidates.filter (fun id => id ≠ p)) := by
      simp
    have hlt : ((g.room roomId).hostageCandidates.filter (fun id => id ≠ p)).length <
        calculateHostageCount g.players.length g.pub.currentRound :=
      lt_of_lt_of_le (filter_ne_length_lt _ p hp) hlen
    have h2 : RoundEngine.selectHostage
        (g.setRoom roomId
          { g.room roomId with
            hostageCandidates :=
              (g.room roomId).hostageCandidates.filter (fun id => id ≠ p) })
        mgr roomId p =
        { game := (g.setRoom roomId
            { g.room roomId with
              hostageCandidates :=
                (g.room roomId).hostageCandidates.filter (fun id => id ≠ p) }).setRoom
              roomId
            { g.room roomId with
              hostageCandidates :=
                (g.room roomId).hostageCandidates.filter (fun id => id ≠ p) ++ [p] },
          mgr := mgr,
          events := [EventE.HOSTAGE_SELECTED roomId
            ((g.room roomId).hostageCandidates.filter (fun id => id ≠ p) ++ [p]).length
            (calculateHostageCount g.players.length g.pub.currentRound) false],
          result := .ok } := by
      unfold RoundEngine.selectHostage
      dsimp only
      simp only [room_setRoom_same, players_setRoom, pub_setRoom]
      rw [if_neg (by simp [hlock]), if_neg (by simpa using hnp), if_neg (by omega)]
    rw [h2]
    simp only [room_setRoom_same, List.mem_append, List.mem_filter, List.mem_singleton]
    constructor
    · rintro (⟨hx, _⟩ | rfl)
      · exact hx
      · exact hp
    · intro hx
      by_cases hxp : x = p
      · exact Or.inr hxp
      · exact Or.inl ⟨hx, by simpa using hxp⟩
  · by_cases hful : calculateHostageCount g.players.length g.pub.currentRound ≤
        (g.room roomId).hostageCandidates.length
    · -- limit reached: both calls reject and leave the game untouched
      have h1 : RoundEngine.selectHostage g mgr roomId p =
          { game := g, mgr := mgr, events := [],
            result := .fail "Hostage limit reached. Deselect another hostage first." } := by
        unfold RoundEngine.selectHostage
        dsimp only
        rw [if_neg (by simp [hlock]), if_neg (by simpa using hp), if_pos hful]
      rw [h1]
      rw [h1]
    · -- first call adds p, second call removes exactly it
      have h1 : RoundEngine.selectHostage g mgr roomId p =
          { game := g.setRoom roomId
              { g.room roomId with
                hostageCandidates := (g.room roomId).hostageCandidates ++ [p] },
            mgr := mgr,
            events := [EventE.HOSTAGE_SELECTED roomId
              ((g.room roomId).hostageCandidates ++ [p]).length
              (calculateHostageCount g.players.length g.pub.currentRound) false],
            result := .ok } := by
        unfold RoundEngine.selectHostage
        dsimp only
        rw [if_neg (by simp [hlock]), if_neg (by simpa using hp), if_neg hful]
      rw [h1]
      have hfil : ((g.room roomId).hostageCandidates ++ [p]).filter (fun id => id ≠ p) =
          (g.room roomId).hostageCandidates := by
        rw [List.filter_append]
        have h2 : ((g.room roomId).hostageCandidates).filter (fun id => id ≠ p) =
            (g.room roomId).hostageCandidates := by
          apply List.filter_eq_self.mpr
          intro a ha
          have hane : a ≠ p := fun hc => hp (hc ▸ ha)
          simp [hane]
        rw [h2]
        simp
      have h2 : RoundEngine.selectHostage
          (g.setRoom roomId
            { g.room roomId with
              hostageCandidates := (g.room roomId).hostageCandidates ++ [p] })
          mgr roomId p =
          { game := (g.setRoom roomId
              { g.room roomId with
                hostageCandidates := (g.room roomId).hostageCandidates ++ [p] }).setRoom
                roomId
              { g.room roomId with
                hostageCandidates := (g.room roomId).hostageCandidates },
            mgr := mgr,
            events := [EventE.HOSTAGE_SELECTED roomId
              ((g.room roomId).hostageCandidates).length
              (calculateHostageCount g.players.length g.pub.currentRound) true],
            result := .ok } := by
        unfold RoundEngine.selectHostage
        dsimp only
        simp only [room_setRoom_same, players_setRoom, pub_setRoom]
        rw [if_neg (by simp [hlock]), if_pos (by simp), hfil]
      rw [h2]
      simp only [room_setRoom_same]

/-- Witness for C9: in `g6` (empty candidate list, limit 1, not locked)
toggling p2 twice leaves room A's candidates with the same members. -/
theorem selectHostage_toggle_noop_witness :
    ("p2" ∈ ((RoundEngine.selectHostage
        (RoundEngine.selectHostage g6 none .ROOM_A "p2").game
        (RoundEngine.selectHostage g6 none .ROOM_A "p2").mgr .ROOM_A "p2").game.room
          .ROOM_A).hostageCandidates
      ↔ "p2" ∈ (g6.room .ROOM_A).hostageCandidates) := by
  exact selectHostage_toggle_noop g6 none .ROOM_A "p2" (by decide) (by decide) "p2"

/-- Claim C10: After a successful `leaveGame` the departing player is gone from
the players map; if the departing player was the host and players remain,
exactly one remaining player — the first in map order — is promoted
(`isHost = true`) and `private.hostId` becomes that player's id (under the
single-host invariant no other remaining player is a host); if no players
remain the game is deleted from the store (modelled as result `none`). -/
theorem leaveGame_spec (g : GameE) (pid : PlayerId) (pl : PlayerE)
    (hfind : g.getPlayer pid = some pl)
    (hsingle : pl.isHost = true → ∀ q ∈ g.players, q.id ≠ pid → q.isHost = false) :
    (g.players.filter (fun p => p.id ≠ pid) = [] →
      (GameController.leaveGame g pid).1 = none) ∧
    (∀ hfirst hrest, g.players.filter (fun p => p.id ≠ pid) = hfirst :: hrest →
      ∃ g1, (GameController.leaveGame g pid).1 = some g1 ∧
        (∀ q ∈ g1.players, q.id ≠ pid) ∧
        (pl.isHost = true →
          g1.players = { hfirst with isHost := true } :: hrest ∧
          g1.hostId = hfirst.id ∧
          g1.players.filter (fun q => q.isHost) = [{ hfirst with isHost := true }]) ∧
        (pl.isHost = false →
          g1.players = hfirst :: hrest ∧ g1.hostId = g.hostId)) := by
  constructor
  · intro hfil
    unfold GameController.leaveGame
    rw [hfind]
    dsimp only
    rw [hfil]
    simp
  · intro hfirst hrest hfil
    have hmem : ∀ q ∈ hfirst :: hrest, q ∈ g.players ∧ q.id ≠ pid := by
      intro q hq
      have hq2 : q ∈ g.players.filter (fun p => p.id ≠ pid) := by
        rw [hfil]
        exact hq
      have hq3 := List.mem_filter.mp hq2
      exact ⟨hq3.1, by simpa using hq3.2⟩
    unfold GameController.leaveGame
    rw [hfind]
    dsimp only
    rw [hfil]
    by_cases hh : pl.isHost = true
    · rw [if_pos (And.intro hh (by simp : 0 < (hfirst :: hrest).length))]
      dsimp only
      rw [if_neg (by simp : ¬(({ hfirst with isHost := true } :: hrest).length = 0))]
      refine ⟨_, rfl, ?_, ?_, ?_⟩
      · intro q hq
        rcases List.mem_cons.mp hq with h1 | h2
        · subst h1
          exact (hmem hfirst (List.mem_cons_self _ _)).2
        · exact (hmem q (List.mem_cons_of_mem _ h2)).2
      · intro _
        refine ⟨rfl, rfl, ?_⟩
        rw [List.filter_cons]
        have hhost : ({ hfirst with isHost := true } : PlayerE).isHost = true := rfl
        rw [if_pos (by simp [hhost])]
        have hnil : hrest.filter (fun q => q.isHost) = [] := by
          apply List.filter_eq_nil_iff.mpr
          intro q hq
          have hq2 := hmem q (List.mem_cons_of_mem _ hq)
          simp [hsingle hh q hq2.1 hq2.2]
        rw [hnil]
      · intro hfalse
        rw [hfalse] at hh
        simp at hh
    · rw [if_neg (fun hc => hh hc.1 :
          ¬(pl.isHost = true ∧ 0 < (hfirst :: hrest).length))]
      rw [if_neg (by simp : ¬((hfirst :: hrest).length = 0))]
      refine ⟨_, rfl, ?_, ?_, ?_⟩
      · intro q hq
        exact (hmem q hq).2
      · intro htrue
        exact absurd htrue hh
      · intro _
        exact ⟨rfl, rfl⟩

/-- Witness for C10: the host p1 leaves `g6`; p2 (first remaining) is
promoted, `hostId` becomes p2, and p1 is gone. -/
theorem leaveGame_spec_witness :
    ∃ g1, (GameController.leaveGame g6 "p1").1 = some g1 ∧
      (∀ q ∈ g1.players, q.id ≠ "p1") ∧
      ((mkPlayer "p1" "Alice" true (some .ROOM_A) true).isHost = true →
        g1.players = { mkPlayer "p2" "Bob" false (some .ROOM_A) false with isHost := true } ::
          [mkPlayer "p3" "Carol" false (some .ROOM_A) false,
           mkPlayer "p4" "Dan" false (some .ROOM_B) false,
           mkPlayer "p5" "Eve" false (some .ROOM_B) false,
           mkPlayer "p6" "Frank" false (some .ROOM_B) false] ∧
        g1.hostId = (mkPlayer "p2" "Bob" false (some .ROOM_A) false).id ∧
        g1.players.filter (fun q => q.isHost) =
          [{ mkPlayer "p2" "Bob" false (some .ROOM_A) false with isHost := true }]) ∧
      ((mkPlayer "p1" "Alice" true (some .ROOM_A) true).isHost = false →
        g1.players = mkPlayer "p2" "Bob" false (some .ROOM_A) false ::
          [mkPlayer "p3" "Carol" false (some .ROOM_A) false,
           mkPlayer "p4" "Dan" false (some .ROOM_B) false,
           mkPlayer "p5" "Eve" false (some .ROOM_B) false,
           mkPlayer "p6" "Frank" false (some .ROOM_B) false] ∧
        g1.hostId = g6.hostId) := by
  exact (leaveGame_spec g6 "p1" (mkPlayer "p1" "Alice" true (some .ROOM_A) true)
    (by decide) (by decide)).2
    (mkPlayer "p2" "Bob" false (some .ROOM_A) false)
    [mkPlayer "p3" "Carol" false (some .ROOM_A) false,
     mkPlayer "p4" "Dan" false (some .ROOM_B) false,
     mkPlayer "p5" "Eve" false (some .ROOM_B) false,
     mkPlayer "p6" "Frank" false (some .ROOM_B) false]
    (by decide)

/-- Helper: `assignStep` sends the player to room A exactly when `i < mid`. -/
theorem assignStep_roomA (mid i : Nat) (p : PlayerE) (acc : GameE) :
    (GameController.assignStep mid i p acc).roomA.players =
      (if i < mid then acc.roomA.players ++ [p.id] else acc.roomA.players) := by
  unfold GameController.assignStep
  by_cases h : i < mid
  · simp [h, GameE.setRoom, GameE.room, GameE.updatePlayer]
  · simp [h, GameE.setRoom, GameE.room, GameE.updatePlayer]

/-- Helper: `assignStep` on room B. -/
theorem assignStep_roomB (mid i : Nat) (p : PlayerE) (acc : GameE) :
    (GameController.assignStep mid i p acc).roomB.players =
      (if i < mid then acc.roomB.players else acc.roomB.players ++ [p.id]) := by
  unfold GameController.assignStep
  by_cases h : i < mid
  · simp [h, GameE.setRoom, GameE.room, GameE.updatePlayer]
  · simp [h, GameE.setRoom, GameE.room, GameE.updatePlayer]

/-- Helper: room sizes produced by the `assignRooms` loop, in closed form. -/
theorem assignLoop_lengths (mid : Nat) :
    ∀ (l : List PlayerE) (i : Nat) (acc : GameE),
      (GameController.assignLoop mid i l acc).roomA.players.length =
        acc.roomA.players.length + (min (i + l.length) mid - min i mid) ∧
      (GameController.assignLoop mid i l acc).roomB.players.length =
        acc.roomB.players.length + (l.length - (min (i + l.length) mid - min i mid)) := by
  intro l
  induction l with
  | nil =>
    intro i acc
    simp [GameController.assignLoop]
  | cons p rest ih =>
    intro i acc
    have hstep := ih (i + 1) (GameController.assignStep mid i p acc)
    have hA := assignStep_roomA mid i p acc
    have hB := assignStep_roomB mid i p acc
    unfold GameController.assignLoop
    constructor
    · rw [hstep.1, hA]
      by_cases h : i < mid
      · rw [if_pos h]
        simp only [List.length_append, List.length_cons, List.length_nil]
        omega
      · rw [if_neg h]
        simp only [List.length_cons]
        omega
    · rw [hstep.2, hB]
      by_cases h : i < mid
      · rw [if_pos h]
        simp only [List.length_cons]
        omega
      · rw [if_neg h]
        simp only [List.length_append, List.length_cons, List.length_nil]
        omega

/-- Helper: removing one occurrence (the only one, by Nodup) via filter
shortens the list by exactly one. -/
theorem filter_ne_length_nodup (l : List PlayerId) (p : PlayerId) (hn : l.Nodup)
    (h : p ∈ l) :
    (l.filter (fun id => id ≠ p)).length + 1 = l.length := by
  induction l with
  | nil => simp at h
  | cons a t ih =>
    rcases List.mem_cons.mp h with h1 | h2
    · have ht : t.filter (fun id => id ≠ p) = t := by
        apply List.filter_eq_self.mpr
        intro x hx
        have hxp : x ≠ p := fun he => (List.nodup_cons.mp hn).1 (h1 ▸ he ▸ hx)
        simp [hxp]
      rw [List.filter_cons, if_neg (by simp [h1.symm]), ht, List.length_cons]
    · have hap : a ≠ p := fun he => (List.nodup_cons.mp hn).1 (he ▸ h2)
      rw [List.filter_cons, if_pos (by simp [hap]), List.length_cons, List.length_cons]
      rw [← ih (List.nodup_cons.mp hn).2 h2]

/-- Helper: `updatePlayer` does not change the id column of the players map
when the mutation preserves the id. -/
theorem updatePlayer_map_id (g : GameE) (pid : PlayerId) (f : PlayerE → PlayerE)
    (hf : ∀ p, (f p).id = p.id) :
    (g.updatePlayer pid f).players.map (fun p => p.id) =
      g.players.map (fun p => p.id) := by
  unfold GameE.updatePlayer
  dsimp only
  rw [List.map_map]
  apply List.map_congr_left
  intro a _
  by_cases h : a.id = pid <;> simp [h, hf]

/-- Helper: whether `find?` by id succeeds depends only on the id column. -/
theorem find_id_isSome_of_map_id (q : PlayerId) :
    ∀ (l1 l2 : List PlayerE),
      l1.map (fun p => p.id) = l2.map (fun p => p.id) →
      (l1.find? (fun p => p.id = q)).isSome = (l2.find? (fun p => p.id = q)).isSome := by
  intro l1
  induction l1 with
  | nil =>
    intro l2 h
    cases l2 with
    | nil => rfl
    | cons b t2 => simp at h
  | cons a t1 ih =>
    intro l2 h
    cases l2 with
    | nil => simp at h
    | cons b t2 =>
      simp only [List.map_cons, List.cons.injEq] at h
      rw [List.find?_cons, List.find?_cons, h.1]
      cases hc : decide (b.id = q)
      · simp only [hc]
        exact ih t2 h.2
      · simp only [hc, Option.isSome_some]

/-- Helper: effect of the A→B hostage-move loop on room membership, given
that the moved hostages are distinct members of room A that exist in the
players map. -/
theorem moveHostagesAtoB_spec :
    ∀ (hs : List PlayerId) (g : GameE),
      (∀ pid ∈ hs, (g.getPlayer pid).isSome = true) →
      hs.Nodup →
      (∀ pid ∈ hs, pid ∈ g.roomA.players) →
      g.roomA.players.Nodup →
      (RoundEngine.moveHostagesAtoB hs g).roomA.players.length + hs.length
          = g.roomA.players.length ∧
      (RoundEngine.moveHostagesAtoB hs g).roomB.players = g.roomB.players ++ hs ∧
      (RoundEngine.moveHostagesAtoB hs g).players.map (fun p => p.id)
          = g.players.map (fun p => p.id) ∧
      (RoundEngine.moveHostagesAtoB hs g).roomA.players.Nodup := by
  intro hs
  induction hs with
  | nil =>
    intro g _ _ _ hnd
    refine ⟨?_, ?_, ?_, ?_⟩ <;> simp [RoundEngine.moveHostagesAtoB, hnd]
  | cons pid rest ih =>
    intro g hpres hnd hsub handup
    have hp0 : (g.getPlayer pid).isSome = true := hpres pid (List.mem_cons_self _ _)
    rcases hg : g.getPlayer pid with _ | pl
    · rw [hg] at hp0
      simp at hp0
    · have hstep : RoundEngine.moveHostagesAtoB (pid :: rest) g =
          RoundEngine.moveHostagesAtoB rest
            { g.updatePlayer pid (fun p =>
                { p with currentRoom := some RoomId.ROOM_B, wasSentAsHostage := true }) with
              roomA := { g.roomA with
                         players := g.roomA.players.filter (fun id => id ≠ pid) },
              roomB := { g.roomB with players := g.roomB.players ++ [pid] } } := by
        simp only [RoundEngine.moveHostagesAtoB]
        rw [hg]
        rfl
      obtain ⟨G1, hG1, hstepG⟩ : ∃ G1, G1 =
          ({ g.updatePlayer pid (fun p =>
              { p with currentRoom := some RoomId.ROOM_B, wasSentAsHostage := true }) with
            roomA := { g.roomA with
                       players := g.roomA.players.filter (fun id => id ≠ pid) },
            roomB := { g.roomB with players := g.roomB.players ++ [pid] } } : GameE) ∧
          RoundEngine.moveHostagesAtoB (pid :: rest) g =
            RoundEngine.moveHostagesAtoB rest G1 := ⟨_, rfl, hstep⟩
      have hG1A : G1.roomA.players = g.roomA.players.filter (fun id => id ≠ pid) := by
        rw [hG1]
      have hG1B : G1.roomB.players = g.roomB.players ++ [pid] := by
        rw [hG1]
      have hG1ids : G1.players.map (fun p => p.id) = g.players.map (fun p => p.id) := by
        rw [hG1]
        exact updatePlayer_map_id g pid _ (fun p => rfl)
      have hpres1 : ∀ q ∈ rest, (G1.getPlayer q).isSome = true := by
        intro q hq
        have hgq := hpres q (List.mem_cons_of_mem _ hq)
        unfold GameE.getPlayer at hgq ⊢
        rw [find_id_isSome_of_map_id q G1.players g.players hG1ids]
        exact hgq
      have hnd1 := (List.nodup_cons.mp hnd).2
      have hsub1 : ∀ q ∈ rest, q ∈ G1.roomA.players := by
        intro q hq
        rw [hG1A, List.mem_filter]
        refine ⟨hsub q (List.mem_cons_of_mem _ hq), ?_⟩
        have hqne : q ≠ pid := fun he => (List.nodup_cons.mp hnd).1 (he ▸ hq)
        simp [hqne]
      have hndA1 : G1.roomA.players.Nodup := by
        rw [hG1A]
        exact handup.filter _
      have ihres := ih G1 hpres1 hnd1 hsub1 hndA1
      rw [hstepG]
      refine ⟨?_, ?_, ?_, ?_⟩
      · have hflen := filter_ne_length_nodup g.roomA.players pid handup
          (hsub pid (List.mem_cons_self _ _))
        have h1 := ihres.1
        rw [hG1A] at h1
        simp only [List.length_cons]
        omega
      · rw [ihres.2.1, hG1B, List.append_assoc, List.singleton_append]
      · rw [ihres.2.2.1, hG1ids]
      · exact ihres.2.2.2

/-- Helper: effect of the B→A hostage-move loop, mirror of
`moveHostagesAtoB_spec`. -/
theorem moveHostagesBtoA_spec :
    ∀ (hs : List PlayerId) (g : GameE),
      (∀ pid ∈ hs, (g.getPlayer pid).isSome = true) →
      hs.Nodup →
      (∀ pid ∈ hs, pid ∈ g.roomB.players) →
      g.roomB.players.Nodup →
      (RoundEngine.moveHostagesBtoA hs g).roomB.players.length + hs.length
          = g.roomB.players.length ∧
      (RoundEngine.moveHostagesBtoA hs g).roomA.players = g.roomA.players ++ hs ∧
      (RoundEngine.moveHostagesBtoA hs g).players.map (fun p => p.id)
          = g.players.map (fun p => p.id) ∧
      (RoundEngine.moveHostagesBtoA hs g).roomB.players.Nodup := by
  intro hs
  induction hs with
  | nil =>
    intro g _ _ _ hnd
    refine ⟨?_, ?_, ?_, ?_⟩ <;> simp [RoundEngine.moveHostagesBtoA, hnd]
  | cons pid rest ih =>
    intro g hpres hnd hsub handup
    have hp0 : (g.getPlayer pid).isSome = true := hpres pid (List.mem_cons_self _ _)
    rcases hg : g.getPlayer pid with _ | pl
    · rw [hg] at hp0
      simp at hp0
    · have hstep : RoundEngine.moveHostagesBtoA (pid :: rest) g =
          RoundEngine.moveHostagesBtoA rest
            { g.updatePlayer pid (fun p =>
                { p with currentRoom := some RoomId.ROOM_A, wasSentAsHostage := true }) with
              roomB := { g.roomB with
                         players := g.roomB.players.filter (fun id => id ≠ pid) },
              roomA := { g.roomA with players := g.roomA.players ++ [pid] } } := by
        simp only [RoundEngine.moveHostagesBtoA]
        rw [hg]
        rfl
      obtain ⟨G1, hG1, hstepG⟩ : ∃ G1, G1 =
          ({ g.updatePlayer pid (fun p =>
              { p with currentRoom := some RoomId.ROOM_A, wasSentAsHostage := true }) with
            roomB := { g.roomB with
                       players := g.roomB.players.filter (fun id => id ≠ pid) },
            roomA := { g.roomA with players := g.roomA.players ++ [pid] } } : GameE) ∧
          RoundEngine.moveHostagesBtoA (pid :: rest) g =
            RoundEngine.moveHostagesBtoA rest G1 := ⟨_, rfl, hstep⟩
      have hG1B : G1.roomB.players = g.roomB.players.filter (fun id => id ≠ pid) := by
        rw [hG1]
      have hG1A : G1.roomA.players = g.roomA.players ++ [pid] := by
        rw [hG1]
      have hG1ids : G1.players.map (fun p => p.id) = g.players.map (fun p => p.id) := by
        rw [hG1]
        exact updatePlayer_map_id g pid _ (fun p => rfl)
      have hpres1 : ∀ q ∈ rest, (G1.getPlayer q).isSome = true := by
        intro q hq
        have hgq := hpres q (List.mem_cons_of_mem _ hq)
        unfold GameE.getPlayer at hgq ⊢
        rw [find_id_isSome_of_map_id q G1.players g.players hG1ids]
        exact hgq
      have hnd1 := (List.nodup_cons.mp hnd).2
      have hsub1 : ∀ q ∈ rest, q ∈ G1.roomB.players := by
        intro q hq
        rw [hG1B, List.mem_filter]
        refine ⟨hsub q (List.mem_cons_of_mem _ hq), ?_⟩
        have hqne : q ≠ pid := fun he => (List.nodup_cons.mp hnd).1 (he ▸ hq)
        simp [hqne]
      have hndB1 : G1.roomB.players.Nodup := by
        rw [hG1B]
        exact handup.filter _
      have ihres := ih G1 hpres1 hnd1 hsub1 hndB1
      rw [hstepG]
      refine ⟨?_, ?_, ?_, ?_⟩
      · have hflen := filter_ne_length_nodup g.roomB.players pid handup
          (hsub pid (List.mem_cons_self _ _))
        have h1 := ihres.1
        rw [hG1B] at h1
        simp only [List.length_cons]
        omega
      · rw [ihres.2.1, hG1A, List.append_assoc, List.singleton_append]
      · rw [ihres.2.2.1, hG1ids]
      · exact ihres.2.2.2

/-- Supporting law for the room-balance analysis: `assignRooms` splits the
shuffled players at `midpoint = floor(n/2)` onto initially empty rooms, so
the two member lists differ in size by at most one; and `exchangeHostages`,
applied to locked hostage lists of equal size whose entries are distinct
members of their respective (duplicate-free, disjoint) rooms and exist in
the players map, preserves both room sizes exactly.  The membership proviso
is exactly what the unwired hostage-target validation was meant to ensure;
without it the bound can break (see the failing trace below). -/
theorem room_size_balance (g : GameE) (shuffled : List PlayerE) (gx : GameE)
    (hA0 : g.roomA.players = []) (hB0 : g.roomB.players = [])
    (hpresA : ∀ pid ∈ gx.roomA.hostageCandidates, (gx.getPlayer pid).isSome = true)
    (hpresB : ∀ pid ∈ gx.roomB.hostageCandidates, (gx.getPlayer pid).isSome = true)
    (hndA : gx.roomA.hostageCandidates.Nodup)
    (hndB : gx.roomB.hostageCandidates.Nodup)
    (hsubA : ∀ pid ∈ gx.roomA.hostageCandidates, pid ∈ gx.roomA.players)
    (hsubB : ∀ pid ∈ gx.roomB.hostageCandidates, pid ∈ gx.roomB.players)
    (hplA : gx.roomA.players.Nodup) (hplB : gx.roomB.players.Nodup)
    (hdisj : ∀ pid ∈ gx.roomB.players, pid ∉ gx.roomA.players)
    (heq : gx.roomA.hostageCandidates.length = gx.roomB.hostageCandidates.length) :
    ((GameController.assignRooms g shuffled).roomA.players.length ≤
        (GameController.assignRooms g shuffled).roomB.players.length + 1 ∧
     (GameController.assignRooms g shuffled).roomB.players.length ≤
        (GameController.assignRooms g shuffled).roomA.players.length + 1) ∧
    ((RoundEngine.exchangeHostages gx).1.roomA.players.length =
        gx.roomA.players.length ∧
     (RoundEngine.exchangeHostages gx).1.roomB.players.length =
        gx.roomB.players.length) := by
  constructor
  · obtain ⟨h1, h2⟩ := assignLoop_lengths (shuffled.length / 2) shuffled 0 g
    unfold GameController.assignRooms
    rw [h1, h2, hA0, hB0]
    simp only [List.length_nil]
    omega
  · have hmA := moveHostagesAtoB_spec gx.roomA.hostageCandidates gx hpresA hndA hsubA hplA
    have hpresB1 : ∀ pid ∈ gx.roomB.hostageCandidates,
        ((RoundEngine.moveHostagesAtoB gx.roomA.hostageCandidates gx).getPlayer pid).isSome
          = true := by
      intro q hq
      unfold GameE.getPlayer
      rw [find_id_isSome_of_map_id q _ gx.players hmA.2.2.1]
      exact hpresB q hq
    have hsubB1 : ∀ pid ∈ gx.roomB.hostageCandidates,
        pid ∈ (RoundEngine.moveHostagesAtoB gx.roomA.hostageCandidates gx).roomB.players := by
      intro q hq
      rw [hmA.2.1]
      exact List.mem_append.mpr (Or.inl (hsubB q hq))
    have hplB1 : (RoundEngine.moveHostagesAtoB gx.roomA.hostageCandidates gx).roomB.players.Nodup := by
      rw [hmA.2.1]
      refine List.Nodup.append hplB hndA ?_
      intro a ha1 ha2
      exact hdisj a ha1 (hsubA a ha2)
    have hmB := moveHostagesBtoA_spec gx.roomB.hostageCandidates
      (RoundEngine.moveHostagesAtoB gx.roomA.hostageCandidates gx) hpresB1 hndB hsubB1 hplB1
    have hexA : (RoundEngine.exchangeHostages gx).1.roomA.players =
        (RoundEngine.moveHostagesBtoA gx.roomB.hostageCandidates
          (RoundEngine.moveHostagesAtoB gx.roomA.hostageCandidates gx)).roomA.players := rfl
    have hexB : (RoundEngine.exchangeHostages gx).1.roomB.players =
        (RoundEngine.moveHostagesBtoA gx.roomB.hostageCandidates
          (RoundEngine.moveHostagesAtoB gx.roomA.hostageCandidates gx)).roomB.players := rfl
    constructor
    · rw [hexA]
      have hA2 := congrArg List.length hmB.2.1
      rw [List.length_append] at hA2
      have hA1 := hmA.1
      omega
    · rw [hexB]
      have hB2 := hmB.1
      have hB1 := congrArg List.length hmA.2.1
      rw [List.length_append] at hB1
      omega

/-- Instantiation of the supporting law: assigning the six shuffled players
of `g6pre` gives a 3/3 split, and exchanging the locked 1-vs-1 hostages of
`g6x` leaves both rooms at size 3. -/
theorem room_size_balance_witness :
    ((GameController.assignRooms g6pre g6pre.players).roomA.players.length ≤
        (GameController.assignRooms g6pre g6pre.players).roomB.players.length + 1 ∧
     (GameController.assignRooms g6pre g6pre.players).roomB.players.length ≤
        (GameController.assignRooms g6pre g6pre.players).roomA.players.length + 1) ∧
    ((RoundEngine.exchangeHostages g6x).1.roomA.players.length =
        g6x.roomA.players.length ∧
     (RoundEngine.exchangeHostages g6x).1.roomB.players.length =
        g6x.roomB.players.length) := by
  exact room_size_balance g6pre g6pre.players g6x (by decide) (by decide) (by decide)
    (by decide) (by decide) (by decide) (by decide) (by decide) (by decide) (by decide)
    (by decide) (by decide)

/-- Claim C5 (code bug): the claimed balance bound fails after a reachable
hostage exchange.  Because the SELECT_HOSTAGE path never validates the
target (the repository's own `validateHostageSelection` would reject it with
WRONG_ROOM but is never invoked), room A's leader can select and lock room
B's member p4 while room B also locks p4 — both locked lists have the
required size 1.  `exchangeHostages` on this state `g6bad` turns the 3/3
split into 4/2: the A-loop removes nothing from room A (p4 is not a member)
yet pushes p4 onto room B, and the B-loop removes both copies of p4 from
room B and pushes one onto room A. -/
theorem exchange_unbalances_rooms :
    (GameController.selectHostage g6 none "p1" .ROOM_A "p4").result.success = true ∧
    (GameController.selectHostage g6 none "p1" .ROOM_A "p4").game.roomA.hostageCandidates
      = ["p4"] ∧
    g6bad.roomA.players.length = 3 ∧
    g6bad.roomB.players.length = 3 ∧
    g6bad.roomA.hostageCandidates.length = g6bad.roomB.hostageCandidates.length ∧
    g6bad.roomA.hostageCandidates.length =
      calculateHostageCount g6bad.players.length g6bad.pub.currentRound ∧
    (RoundEngine.exchangeHostages g6bad).1.roomA.players.length = 4 ∧
    (RoundEngine.exchangeHostages g6bad).1.roomB.players.length = 2 := by
  decide

/-- Claim C9 counterexample: in the 11-player round-1 game `g11` two
hostages are legitimately selected (required count 2); after p11 leaves
mid-round the player count drops to 10 and the required count falls to 1, so
the selected count exceeds the limit.  Toggling p2 twice in that state
removes p2 permanently: the first call deselects p2, and the second is
rejected with the limit error instead of re-adding — refuting the claimed
set-level no-op for this reachable unlocked state. -/
theorem toggle_twice_drops_hostage :
    calculateHostageCount g11.players.length g11.pub.currentRound = 2 ∧
    (g11.room .ROOM_A).hostageCandidates = ["p2", "p3"] ∧
    (g11.room .ROOM_A).hostagesLocked = false ∧
    ((GameController.leaveGame g11 "p11").1).isSome = true ∧
    (let g10 := ((GameController.leaveGame g11 "p11").1).getD g11
     calculateHostageCount g10.players.length g10.pub.currentRound = 1 ∧
     (g10.room .ROOM_A).hostageCandidates = ["p2", "p3"] ∧
     (g10.room .ROOM_A).hostagesLocked = false ∧
     "p2" ∈ (g10.room .ROOM_A).hostageCandidates ∧
     "p2" ∉ (((RoundEngine.selectHostage
         (RoundEngine.selectHostage g10 none .ROOM_A "p2").game
         (RoundEngine.selectHostage g10 none .ROOM_A "p2").mgr .ROOM_A "p2").game.room
           .ROOM_A).hostageCandidates)) := by
  decide
